import Mathlib

/-!
# GraphicsFramework: the context state cache

A shallow embedding of `GFW::ContextState` (Include/ContextState.h,
Source/ContextState.cpp) and of the driver interface it talks to
(Include/Interfaces/IContextStateFunctions.h).

* C++ `float` is an IEEE 754 binary32 value, kept as its three bit fields; the
  only float operation the cache performs is the comparison `!=`.
* C++ `int` values are only stored and compared, so they are kept as `Int`.
* The driver behind `IContextStateFunctions*` is represented by the list of the
  calls it has received, oldest first.
* Every mutating member function takes the object and returns the new object.
-/

namespace GFW

/-! ## Scalars and vectors -/

/-- An IEEE 754 binary32 value (`float`): sign bit, biased exponent, fraction. -/
structure F32 where
  sign : Bool
  exponent : Fin 256
  mantissa : Fin 8388608
  deriving DecidableEq, Repr

namespace F32

/-- The literal `0.0f`. -/
def zero : F32 := ⟨false, 0, 0⟩

/-- The literal `-0.0f`. -/
def negZero : F32 := ⟨true, 0, 0⟩

/-- The literal `1.0f`. -/
def one : F32 := ⟨false, 127, 0⟩

/-- The literal `-1.0f`. -/
def negOne : F32 := ⟨true, 127, 0⟩

/-- A quiet NaN (`std::numeric_limits<float>::quiet_NaN()`). -/
def qNaN : F32 := ⟨false, 255, 4194304⟩

/-- Exponent all ones and a non-zero fraction. -/
def isNaN (a : F32) : Bool := a.exponent == 255 && a.mantissa != 0

/-- Positive or negative zero. -/
def isZero (a : F32) : Bool := a.exponent == 0 && a.mantissa == 0

/-- The C++ `a == b` on floats: false when either side is NaN, true on two
zeros of any sign, and otherwise true exactly on identical bit patterns. -/
def eq (a b : F32) : Bool :=
  !a.isNaN && !b.isNaN && (decide (a = b) || (a.isZero && b.isZero))

/-- The C++ `a != b` on floats. -/
def ne (a b : F32) : Bool := !(F32.eq a b)

end F32

/-- The type `glm::vec2`. -/
structure Vec2 where
  x : F32
  y : F32
  deriving DecidableEq, Repr

/-- The type `glm::vec4`. -/
structure Vec4 where
  x : F32
  y : F32
  z : F32
  w : F32
  deriving DecidableEq, Repr

/-- The vector `glm::vec2(0.0f)`. -/
def Vec2.zero : Vec2 := ⟨F32.zero, F32.zero⟩

/-- The vector `glm::vec4(0.0f)`. -/
def Vec4.zero : Vec4 := ⟨F32.zero, F32.zero, F32.zero, F32.zero⟩

/-- The `glm::vec2` comparison `v1 != v2`: some component compares unequal. -/
def Vec2.ne (v1 v2 : Vec2) : Bool := F32.ne v1.x v2.x || F32.ne v1.y v2.y

/-- The `glm::vec4` comparison `v1 != v2`: some component compares unequal. -/
def Vec4.ne (v1 v2 : Vec4) : Bool :=
  F32.ne v1.x v2.x || F32.ne v1.y v2.y || F32.ne v1.z v2.z || F32.ne v1.w v2.w

/-! ## Enumerations of IContextStateFunctions.h -/

inductive RasterizationMode
  | FILL | LINE | POINTS
  deriving DecidableEq, Repr

inductive FaceDirection
  | FRONT | BACK | FRONT_AND_BACK
  deriving DecidableEq, Repr

inductive TestFunction
  | NEVER | ALWAYS | LESS | LEQUAL | GREATER | GEQUAL | EQUAL | NOTEQUAL
  deriving DecidableEq, Repr

inductive TestOperation
  | KEEP | ZERO | INCREMENT | DECREMENT | INVERT | REPLACE | INCREMENT_WRAP | DECREMENT_WRAP
  deriving DecidableEq, Repr

inductive BlendFunction
  | ZERO | ONE | SRC_COLOR | ONE_MIN_SRC_COLOR | DST_COLOR | ONE_MIN_DST_COLOR
  | SRC_ALPHA | ONE_MIN_SRC_ALPHA | DST_ALPHA | ONE_MIN_DST_ALPHA
  deriving DecidableEq, Repr

/-- One call of a method of the interface `IContextStateFunctions`, with its
arguments; one constructor per pure virtual method. -/
inductive DriverCall
  | SetViewport (position dimensions : Vec2)
  | SetDepthRange (min max : F32)
  | SetPointSize (size : F32)
  | SetPointAntialiasing (enabled : Bool)
  | SetLineWidth (width : F32)
  | SetLineAntialiasing (enabled : Bool)
  | SetCullFace (enabled : Bool)
  | SetFacesToCull (backFacing : Bool)
  | SetFrontFace (counterClockwise : Bool)
  | SetPolygonRasterization (mode : RasterizationMode)
  | SetStencilTest (enabled : Bool)
  | SetStencilFunction (face : FaceDirection) (function : TestFunction)
  | SetStencilMask (face : FaceDirection) (mask : Int)
  | SetStencilOperation (face : FaceDirection) (stencilFails depthFails pass : TestOperation)
  | SetAlphaTest (enabled : Bool)
  | SetAlphaFunction (function : TestFunction) (ref : F32)
  | SetDepthTest (enabled : Bool)
  | SetDepthFunction (function : TestFunction)
  | SetBlend (enabled : Bool)
  | SetBlendFunction (sourceFunc destinationFunc : BlendFunction)
  | SetColorClearValue (color : Vec4)
  | SetDepthClearValue (depth : F32)
  | SetStencilClearValue (stencil : Int)
  deriving DecidableEq, Repr

/-! ## The snapshot -/

/-- The struct `ContextState::ContextStateVariables`. The two arrays
`TestOperation [3]` are kept as three fields each, indexed 0, 1, 2. -/
structure ContextStateVariables where
  viewportPosition : Vec2
  viewportDimensions : Vec2
  depthRangeMin : F32
  depthRangeMax : F32
  pointSize : F32
  pointAntialiasing : Bool
  lineWidth : F32
  lineAntialiasing : Bool
  faceCullingEnabled : Bool
  cullBackFace : Bool
  frontFaceCounterClockwise : Bool
  polygonRasterization : RasterizationMode
  stencilTestEnabled : Bool
  frontFaceStencilFunction : TestFunction
  backFaceStencilFunction : TestFunction
  frontFaceStencilMask : Int
  backFaceStencilMask : Int
  frontFaceStencilOperation0 : TestOperation
  frontFaceStencilOperation1 : TestOperation
  frontFaceStencilOperation2 : TestOperation
  backFaceStencilOperation0 : TestOperation
  backFaceStencilOperation1 : TestOperation
  backFaceStencilOperation2 : TestOperation
  alphaTestEnabled : Bool
  alphaTestFunction : TestFunction
  alphaTestReference : F32
  depthTestEnabled : Bool
  depthTestFunction : TestFunction
  blendEnabled : Bool
  sourceBlendFunction : BlendFunction
  destinationBlendFunction : BlendFunction
  clearColor : Vec4
  clearDepth : F32
  clearStencil : Int
  deriving DecidableEq, Repr

/-- The default member initialisers of `ContextStateVariables`. The three glm
members have no initialiser in the struct; what a default-constructed glm vector
holds is decided by glm, so their initial values are parameters. An array
initialised with `{ TestOperation::KEEP }` holds KEEP followed by
value-initialised elements, and KEEP is the enumerator 0. -/
def ContextStateVariables.initial (viewportPosition viewportDimensions : Vec2)
    (clearColor : Vec4) : ContextStateVariables where
  viewportPosition := viewportPosition
  viewportDimensions := viewportDimensions
  depthRangeMin := F32.zero
  depthRangeMax := F32.one
  pointSize := F32.one
  pointAntialiasing := false
  lineWidth := F32.one
  lineAntialiasing := false
  faceCullingEnabled := false
  cullBackFace := true
  frontFaceCounterClockwise := true
  polygonRasterization := RasterizationMode.FILL
  stencilTestEnabled := false
  frontFaceStencilFunction := TestFunction.ALWAYS
  backFaceStencilFunction := TestFunction.ALWAYS
  frontFaceStencilMask := 1
  backFaceStencilMask := 0
  frontFaceStencilOperation0 := TestOperation.KEEP
  frontFaceStencilOperation1 := TestOperation.KEEP
  frontFaceStencilOperation2 := TestOperation.KEEP
  backFaceStencilOperation0 := TestOperation.KEEP
  backFaceStencilOperation1 := TestOperation.KEEP
  backFaceStencilOperation2 := TestOperation.KEEP
  alphaTestEnabled := false
  alphaTestFunction := TestFunction.ALWAYS
  alphaTestReference := F32.zero
  depthTestEnabled := false
  depthTestFunction := TestFunction.LESS
  blendEnabled := false
  sourceBlendFunction := BlendFunction.ONE
  destinationBlendFunction := BlendFunction.ZERO
  clearColor := clearColor
  clearDepth := F32.one
  clearStencil := 0

/-! ## The cache -/

/-- Modelled from the spec: the macro `GFW_ASSERT` of Logging.h, a header that
is not among the sources. A violated assertion is a fatal precondition
violation that halts a debug build, kept here as `none`; a satisfied one lets
the function continue. -/
def GFW_ASSERT (condition : Bool) : Option Unit :=
  if condition then some () else none

/-- The class `ContextState`: the driver it owns (the calls that driver has
received so far, oldest first) and the two snapshots. -/
structure ContextState where
  m_stateFunctions : List DriverCall
  m_currentState : ContextStateVariables
  m_recordedState : ContextStateVariables
  deriving DecidableEq, Repr

namespace ContextState

/-- The statement `m_stateFunctions->...(...)`: the driver receives one more call. -/
def send (self : ContextState) (call : DriverCall) : ContextState :=
  { self with m_stateFunctions := self.m_stateFunctions ++ [call] }

/-- The member function `ContextState::RecordState`. -/
def RecordState (self : ContextState) : ContextState :=
  { self with m_recordedState := self.m_currentState }

/-- The member function `ContextState::SetViewport`. -/
def SetViewport (self : ContextState) (position dimensions : Vec2) : ContextState :=
  if Vec2.ne self.m_currentState.viewportPosition position
      || Vec2.ne self.m_currentState.viewportDimensions dimensions then
    { self.send (DriverCall.SetViewport position dimensions) with
      m_currentState := { self.m_currentState with
        viewportPosition := position, viewportDimensions := dimensions } }
  else self

/-- The member function `ContextState::GetViewportPosition`. -/
def GetViewportPosition (self : ContextState) : Vec2 := self.m_currentState.viewportPosition

/-- The member function `ContextState::GetViewportDimensions`. -/
def GetViewportDimensions (self : ContextState) : Vec2 := self.m_currentState.viewportDimensions

/-- The member function `ContextState::SetDepthRange`. -/
def SetDepthRange (self : ContextState) (min max : F32) : ContextState :=
  if F32.ne self.m_currentState.depthRangeMin min
      || F32.ne self.m_currentState.depthRangeMax max then
    { self.send (DriverCall.SetDepthRange min max) with
      m_currentState := { self.m_currentState with depthRangeMin := min, depthRangeMax := max } }
  else self

/-- The member function `ContextState::GetDepthRange`; the two output
parameters are returned as the pair (min, max). -/
def GetDepthRange (self : ContextState) : F32 × F32 :=
  (self.m_currentState.depthRangeMin, self.m_currentState.depthRangeMax)

/-- The member function `ContextState::SetPointSize`. -/
def SetPointSize (self : ContextState) (size : F32) : ContextState :=
  if F32.ne self.m_currentState.pointSize size then
    { self.send (DriverCall.SetPointSize size) with
      m_currentState := { self.m_currentState with pointSize := size } }
  else self

/-- The member function `ContextState::GetPointSize`. -/
def GetPointSize (self : ContextState) : F32 := self.m_currentState.pointSize

/-- The member function `ContextState::SetPointAntialiasing`. -/
def SetPointAntialiasing (self : ContextState) (enabled : Bool) : ContextState :=
  if self.m_currentState.pointAntialiasing != enabled then
    { self.send (DriverCall.SetPointAntialiasing enabled) with
      m_currentState := { self.m_currentState with pointAntialiasing := enabled } }
  else self

/-- The member function `ContextState::IsPointAntialiasingEnabled`. -/
def IsPointAntialiasingEnabled (self : ContextState) : Bool :=
  self.m_currentState.pointAntialiasing

/-- The member function `ContextState::SetLineWidth`. -/
def SetLineWidth (self : ContextState) (width : F32) : ContextState :=
  if F32.ne self.m_currentState.lineWidth width then
    { self.send (DriverCall.SetLineWidth width) with
      m_currentState := { self.m_currentState with lineWidth := width } }
  else self

/-- The member function `ContextState::GetLineWidth`. -/
def GetLineWidth (self : ContextState) : F32 := self.m_currentState.lineWidth

/-- The member function `ContextState::SetLineAntialiasing`. -/
def SetLineAntialiasing (self : ContextState) (enabled : Bool) : ContextState :=
  if self.m_currentState.lineAntialiasing != enabled then
    { self.send (DriverCall.SetLineAntialiasing enabled) with
      m_currentState := { self.m_currentState with lineAntialiasing := enabled } }
  else self

/-- The member function `ContextState::IsLineAntialiasingEnabled`. -/
def IsLineAntialiasingEnabled (self : ContextState) : Bool :=
  self.m_currentState.lineAntialiasing

/-- The member function `ContextState::SetFaceCulling`; the driver method it
calls is `SetCullFace`. -/
def SetFaceCulling (self : ContextState) (enabled : Bool) : ContextState :=
  if self.m_currentState.faceCullingEnabled != enabled then
    { self.send (DriverCall.SetCullFace enabled) with
      m_currentState := { self.m_currentState with faceCullingEnabled := enabled } }
  else self

/-- The member function `ContextState::IsFaceCullingEnabled`. -/
def IsFaceCullingEnabled (self : ContextState) : Bool := self.m_currentState.faceCullingEnabled

/-- The member function `ContextState::SetFacesToCull`. -/
def SetFacesToCull (self : ContextState) (backFacing : Bool) : ContextState :=
  if self.m_currentState.cullBackFace != backFacing then
    { self.send (DriverCall.SetFacesToCull backFacing) with
      m_currentState := { self.m_currentState with cullBackFace := backFacing } }
  else self

/-- The member function `ContextState::IsCullingBackFaces`. -/
def IsCullingBackFaces (self : ContextState) : Bool := self.m_currentState.cullBackFace

/-- The member function `ContextState::SetFrontFace`. -/
def SetFrontFace (self : ContextState) (counterClockwise : Bool) : ContextState :=
  if self.m_currentState.frontFaceCounterClockwise != counterClockwise then
    { self.send (DriverCall.SetFrontFace counterClockwise) with
      m_currentState := { self.m_currentState with frontFaceCounterClockwise := counterClockwise } }
  else self

/-- The member function `ContextState::FrontFaceIsCounterClockwise`. -/
def FrontFaceIsCounterClockwise (self : ContextState) : Bool :=
  self.m_currentState.frontFaceCounterClockwise

/-- The member function `ContextState::SetPolygonRasterization`. -/
def SetPolygonRasterization (self : ContextState) (mode : RasterizationMode) : ContextState :=
  if self.m_currentState.polygonRasterization != mode then
    { self.send (DriverCall.SetPolygonRasterization mode) with
      m_currentState := { self.m_currentState with polygonRasterization := mode } }
  else self

/-- The member function `ContextState::GetPolygonRasterization`. -/
def GetPolygonRasterization (self : ContextState) : RasterizationMode :=
  self.m_currentState.polygonRasterization

/-- The member function `ContextState::SetStencilTest`. -/
def SetStencilTest (self : ContextState) (enabled : Bool) : ContextState :=
  if self.m_currentState.stencilTestEnabled != enabled then
    { self.send (DriverCall.SetStencilTest enabled) with
      m_currentState := { self.m_currentState with stencilTestEnabled := enabled } }
  else self

/-- The member function `ContextState::IsStencilTestEnabled`. -/
def IsStencilTestEnabled (self : ContextState) : Bool := self.m_currentState.stencilTestEnabled

/-- The member function `ContextState::SetStencilFunction`. The `default:` arm
of the switch is not reachable from the three enumerators of `FaceDirection`. -/
def SetStencilFunction (self : ContextState) (face : FaceDirection) (function : TestFunction) :
    ContextState :=
  match face with
  | FaceDirection.FRONT =>
    if self.m_currentState.frontFaceStencilFunction != function then
      { self.send (DriverCall.SetStencilFunction face function) with
        m_currentState := { self.m_currentState with frontFaceStencilFunction := function } }
    else self
  | FaceDirection.BACK =>
    if self.m_currentState.backFaceStencilFunction != function then
      { self.send (DriverCall.SetStencilFunction face function) with
        m_currentState := { self.m_currentState with backFaceStencilFunction := function } }
    else self
  | FaceDirection.FRONT_AND_BACK =>
    if self.m_currentState.frontFaceStencilFunction != function
        || self.m_currentState.backFaceStencilFunction != function then
      { self.send (DriverCall.SetStencilFunction face function) with
        m_currentState := { self.m_currentState with
          frontFaceStencilFunction := function, backFaceStencilFunction := function } }
    else self

/-- The member function `ContextState::GetFrontFaceStencilFunction`. -/
def GetFrontFaceStencilFunction (self : ContextState) : TestFunction :=
  self.m_currentState.frontFaceStencilFunction

/-- The member function `ContextState::GetBackFaceStencilFunction`. -/
def GetBackFaceStencilFunction (self : ContextState) : TestFunction :=
  self.m_currentState.backFaceStencilFunction

/-- The member function `ContextState::SetStencilMask`. -/
def SetStencilMask (self : ContextState) (face : FaceDirection) (mask : Int) : ContextState :=
  match face with
  | FaceDirection.FRONT =>
    if self.m_currentState.frontFaceStencilMask != mask then
      { self.send (DriverCall.SetStencilMask face mask) with
        m_currentState := { self.m_currentState with frontFaceStencilMask := mask } }
    else self
  | FaceDirection.BACK =>
    if self.m_currentState.backFaceStencilMask != mask then
      { self.send (DriverCall.SetStencilMask face mask) with
        m_currentState := { self.m_currentState with backFaceStencilMask := mask } }
    else self
  | FaceDirection.FRONT_AND_BACK =>
    if self.m_currentState.frontFaceStencilMask != mask
        || self.m_currentState.backFaceStencilMask != mask then
      { self.send (DriverCall.SetStencilMask face mask) with
        m_currentState := { self.m_currentState with
          frontFaceStencilMask := mask, backFaceStencilMask := mask } }
    else self

/-- The member function `ContextState::GetFrontFaceStencilMask`. -/
def GetFrontFaceStencilMask (self : ContextState) : Int := self.m_currentState.frontFaceStencilMask

/-- The member function `ContextState::GetBackFaceStencilMask`. -/
def GetBackFaceStencilMask (self : ContextState) : Int := self.m_currentState.backFaceStencilMask

/-- The member function `ContextState::SetStencilOperation`. -/
def SetStencilOperation (self : ContextState) (face : FaceDirection)
    (stencilFails depthFails pass : TestOperation) : ContextState :=
  match face with
  | FaceDirection.FRONT =>
    if self.m_currentState.frontFaceStencilOperation0 != stencilFails
        || self.m_currentState.frontFaceStencilOperation1 != depthFails
        || self.m_currentState.frontFaceStencilOperation2 != pass then
      { self.send (DriverCall.SetStencilOperation face stencilFails depthFails pass) with
        m_currentState := { self.m_currentState with
          frontFaceStencilOperation0 := stencilFails
          frontFaceStencilOperation1 := depthFails
          frontFaceStencilOperation2 := pass } }
    else self
  | FaceDirection.BACK =>
    if self.m_currentState.backFaceStencilOperation0 != stencilFails
        || self.m_currentState.backFaceStencilOperation1 != depthFails
        || self.m_currentState.backFaceStencilOperation2 != pass then
      { self.send (DriverCall.SetStencilOperation face stencilFails depthFails pass) with
        m_currentState := { self.m_currentState with
          backFaceStencilOperation0 := stencilFails
          backFaceStencilOperation1 := depthFails
          backFaceStencilOperation2 := pass } }
    else self
  | FaceDirection.FRONT_AND_BACK =>
    if self.m_currentState.frontFaceStencilOperation0 != stencilFails
        || self.m_currentState.frontFaceStencilOperation1 != depthFails
        || self.m_currentState.frontFaceStencilOperation2 != pass
        || self.m_currentState.backFaceStencilOperation0 != stencilFails
        || self.m_currentState.backFaceStencilOperation1 != depthFails
        || self.m_currentState.backFaceStencilOperation2 != pass then
      { self.send (DriverCall.SetStencilOperation face stencilFails depthFails pass) with
        m_currentState := { self.m_currentState with
          frontFaceStencilOperation0 := stencilFails
          frontFaceStencilOperation1 := depthFails
          frontFaceStencilOperation2 := pass
          backFaceStencilOperation0 := stencilFails
          backFaceStencilOperation1 := depthFails
          backFaceStencilOperation2 := pass } }
    else self

/-- The member function `ContextState::GetFrontFaceStencilOperation`; the three
output parameters are returned as (stencilFails, depthFails, pass). -/
def GetFrontFaceStencilOperation (self : ContextState) :
    TestOperation × TestOperation × TestOperation :=
  (self.m_currentState.frontFaceStencilOperation0,
   self.m_currentState.frontFaceStencilOperation1,
   self.m_currentState.frontFaceStencilOperation2)

/-- The member function `ContextState::GetBackFaceStencilOperation`; the three
output parameters are returned as (stencilFails, depthFails, pass). -/
def GetBackFaceStencilOperation (self : ContextState) :
    TestOperation × TestOperation × TestOperation :=
  (self.m_currentState.backFaceStencilOperation0,
   self.m_currentState.backFaceStencilOperation1,
   self.m_currentState.backFaceStencilOperation2)

/-- The member function `ContextState::GetStencilFunction`. -/
def GetStencilFunction (self : ContextState) : Option TestFunction := do
  GFW_ASSERT (self.m_currentState.frontFaceStencilFunction
    == self.m_currentState.backFaceStencilFunction)
  return self.m_currentState.frontFaceStencilFunction

/-- The member function `ContextState::GetStencilMask`. -/
def GetStencilMask (self : ContextState) : Option Int := do
  GFW_ASSERT (self.m_currentState.frontFaceStencilMask == self.m_currentState.backFaceStencilMask)
  return self.m_currentState.frontFaceStencilMask

/-- The member function `ContextState::GetStencilOperation`; the three output
parameters are returned as (stencilFails, depthFails, pass). The third conjunct
of the assertion reads index 1 of the back-face array, as the source does. -/
def GetStencilOperation (self : ContextState) :
    Option (TestOperation × TestOperation × TestOperation) := do
  GFW_ASSERT (self.m_currentState.frontFaceStencilOperation0
      == self.m_currentState.backFaceStencilOperation0
    && self.m_currentState.frontFaceStencilOperation1
      == self.m_currentState.backFaceStencilOperation1
    && self.m_currentState.frontFaceStencilOperation2
      == self.m_currentState.backFaceStencilOperation1)
  return (self.m_currentState.frontFaceStencilOperation0,
    self.m_currentState.frontFaceStencilOperation1,
    self.m_currentState.frontFaceStencilOperation2)

/-- The member function `ContextState::SetAlphaTest`. -/
def SetAlphaTest (self : ContextState) (enabled : Bool) : ContextState :=
  if self.m_currentState.alphaTestEnabled != enabled then
    { self.send (DriverCall.SetAlphaTest enabled) with
      m_currentState := { self.m_currentState with alphaTestEnabled := enabled } }
  else self

/-- The member function `ContextState::IsAlphaTestEnabled`. -/
def IsAlphaTestEnabled (self : ContextState) : Bool := self.m_currentState.alphaTestEnabled

/-- The member function `ContextState::SetAlphaFunction`. -/
def SetAlphaFunction (self : ContextState) (function : TestFunction) (ref : F32) : ContextState :=
  if self.m_currentState.alphaTestFunction != function
      || F32.ne self.m_currentState.alphaTestReference ref then
    { self.send (DriverCall.SetAlphaFunction function ref) with
      m_currentState := { self.m_currentState with
        alphaTestFunction := function, alphaTestReference := ref } }
  else self

/-- The member function `ContextState::GetAlphaFunction`; the two output
parameters are returned as the pair (function, ref). -/
def GetAlphaFunction (self : ContextState) : TestFunction × F32 :=
  (self.m_currentState.alphaTestFunction, self.m_currentState.alphaTestReference)

/-- The member function `ContextState::SetDepthTest`. -/
def SetDepthTest (self : ContextState) (enabled : Bool) : ContextState :=
  if self.m_currentState.depthTestEnabled != enabled then
    { self.send (DriverCall.SetDepthTest enabled) with
      m_currentState := { self.m_currentState with depthTestEnabled := enabled } }
  else self

/-- The member function `ContextState::IsDepthTestEnabled`. -/
def IsDepthTestEnabled (self : ContextState) : Bool := self.m_currentState.depthTestEnabled

/-- The member function `ContextState::SetDepthFunction`. -/
def SetDepthFunction (self : ContextState) (function : TestFunction) : ContextState :=
  if self.m_currentState.depthTestFunction != function then
    { self.send (DriverCall.SetDepthFunction function) with
      m_currentState := { self.m_currentState with depthTestFunction := function } }
  else self

/-- The member function `ContextState::GetDepthFunction`. -/
def GetDepthFunction (self : ContextState) : TestFunction := self.m_currentState.depthTestFunction

/-- The member function `ContextState::SetBlend`. -/
def SetBlend (self : ContextState) (enabled : Bool) : ContextState :=
  if self.m_currentState.blendEnabled != enabled then
    { self.send (DriverCall.SetBlend enabled) with
      m_currentState := { self.m_currentState with blendEnabled := enabled } }
  else self

/-- The member function `ContextState::IsBlendingEnabled`. -/
def IsBlendingEnabled (self : ContextState) : Bool := self.m_currentState.blendEnabled

/-- The member function `ContextState::SetBlendFunction`. -/
def SetBlendFunction (self : ContextState) (sourceFunc destinationFunc : BlendFunction) :
    ContextState :=
  if self.m_currentState.sourceBlendFunction != sourceFunc
      || self.m_currentState.destinationBlendFunction != destinationFunc then
    { self.send (DriverCall.SetBlendFunction sourceFunc destinationFunc) with
      m_currentState := { self.m_currentState with
        sourceBlendFunction := sourceFunc, destinationBlendFunction := destinationFunc } }
  else self

/-- The member function `ContextState::GetSourceBlendFunction`. -/
def GetSourceBlendFunction (self : ContextState) : BlendFunction :=
  self.m_currentState.sourceBlendFunction

/-- The member function `ContextState::GetDestinationBlendFunction`. -/
def GetDestinationBlendFunction (self : ContextState) : BlendFunction :=
  self.m_currentState.destinationBlendFunction

/-- The member function `ContextState::SetColorClearValue`. -/
def SetColorClearValue (self : ContextState) (color : Vec4) : ContextState :=
  if Vec4.ne self.m_currentState.clearColor color then
    { self.send (DriverCall.SetColorClearValue color) with
      m_currentState := { self.m_currentState with clearColor := color } }
  else self

/-- The member function `ContextState::GetColorClearCalue` (spelt so in the source). -/
def GetColorClearCalue (self : ContextState) : Vec4 := self.m_currentState.clearColor

/-- The member function `ContextState::SetDepthClearValue`. -/
def SetDepthClearValue (self : ContextState) (depth : F32) : ContextState :=
  if F32.ne self.m_currentState.clearDepth depth then
    { self.send (DriverCall.SetDepthClearValue depth) with
      m_currentState := { self.m_currentState with clearDepth := depth } }
  else self

/-- The member function `ContextState::GetDepthClearValue`. -/
def GetDepthClearValue (self : ContextState) : F32 := self.m_currentState.clearDepth

/-- The member function `ContextState::SetStencilClearValue`. -/
def SetStencilClearValue (self : ContextState) (stencil : Int) : ContextState :=
  if self.m_currentState.clearStencil != stencil then
    { self.send (DriverCall.SetStencilClearValue stencil) with
      m_currentState := { self.m_currentState with clearStencil := stencil } }
  else self

/-- The member function `ContextState::GetStencilClearValue`. -/
def GetStencilClearValue (self : ContextState) : Int := self.m_currentState.clearStencil

/-- The member function `ContextState::RestoreRecordedState`: the assignment
`m_currentState = m_recordedState` followed by twenty-two calls of the
cache's own setters, each reading its arguments from `m_currentState`. -/
def RestoreRecordedState (self : ContextState) : ContextState :=
  { self with m_currentState := self.m_recordedState }
  |> (fun self => self.SetDepthRange self.m_currentState.depthRangeMin
        self.m_currentState.depthRangeMax)
  |> (fun self => self.SetPointSize self.m_currentState.pointSize)
  |> (fun self => self.SetPointAntialiasing self.m_currentState.pointAntialiasing)
  |> (fun self => self.SetLineWidth self.m_currentState.lineWidth)
  |> (fun self => self.SetLineAntialiasing self.m_currentState.lineAntialiasing)
  |> (fun self => self.SetFaceCulling self.m_currentState.faceCullingEnabled)
  |> (fun self => self.SetFacesToCull self.m_currentState.cullBackFace)
  |> (fun self => self.SetFrontFace self.m_currentState.frontFaceCounterClockwise)
  |> (fun self => self.SetPolygonRasterization self.m_currentState.polygonRasterization)
  |> (fun self => self.SetStencilTest self.m_currentState.stencilTestEnabled)
  |> (fun self => self.SetStencilFunction FaceDirection.FRONT_AND_BACK
        self.m_currentState.frontFaceStencilFunction)
  |> (fun self => self.SetStencilMask FaceDirection.FRONT_AND_BACK
        self.m_currentState.frontFaceStencilMask)
  |> (fun self => self.SetStencilOperation FaceDirection.FRONT_AND_BACK
        self.m_currentState.frontFaceStencilOperation0
        self.m_currentState.frontFaceStencilOperation1
        self.m_currentState.frontFaceStencilOperation2)
  |> (fun self => self.SetAlphaTest self.m_currentState.alphaTestEnabled)
  |> (fun self => self.SetAlphaFunction self.m_currentState.alphaTestFunction
        self.m_currentState.alphaTestReference)
  |> (fun self => self.SetDepthTest self.m_currentState.depthTestEnabled)
  |> (fun self => self.SetDepthFunction self.m_currentState.depthTestFunction)
  |> (fun self => self.SetBlend self.m_currentState.blendEnabled)
  |> (fun self => self.SetBlendFunction self.m_currentState.sourceBlendFunction
        self.m_currentState.destinationBlendFunction)
  |> (fun self => self.SetColorClearValue self.m_currentState.clearColor)
  |> (fun self => self.SetDepthClearValue self.m_currentState.clearDepth)
  |> (fun self => self.SetStencilClearValue self.m_currentState.clearStencil)

/-- The member function `ContextState::InitializeState`: twenty-two calls made
directly on the driver, none on the cache's setters. -/
def InitializeState (self : ContextState) : ContextState :=
  self
  |> (fun self => self.send (DriverCall.SetDepthRange self.m_currentState.depthRangeMin
        self.m_currentState.depthRangeMax))
  |> (fun self => self.send (DriverCall.SetPointSize self.m_currentState.pointSize))
  |> (fun self => self.send (DriverCall.SetPointAntialiasing
        self.m_currentState.pointAntialiasing))
  |> (fun self => self.send (DriverCall.SetLineWidth self.m_currentState.lineWidth))
  |> (fun self => self.send (DriverCall.SetLineAntialiasing self.m_currentState.lineAntialiasing))
  |> (fun self => self.send (DriverCall.SetCullFace self.m_currentState.faceCullingEnabled))
  |> (fun self => self.send (DriverCall.SetFacesToCull self.m_currentState.cullBackFace))
  |> (fun self => self.send (DriverCall.SetFrontFace
        self.m_currentState.frontFaceCounterClockwise))
  |> (fun self => self.send (DriverCall.SetPolygonRasterization
        self.m_currentState.polygonRasterization))
  |> (fun self => self.send (DriverCall.SetStencilTest self.m_currentState.stencilTestEnabled))
  |> (fun self => self.send (DriverCall.SetStencilFunction FaceDirection.FRONT_AND_BACK
        self.m_currentState.frontFaceStencilFunction))
  |> (fun self => self.send (DriverCall.SetStencilMask FaceDirection.FRONT_AND_BACK
        self.m_currentState.frontFaceStencilMask))
  |> (fun self => self.send (DriverCall.SetStencilOperation FaceDirection.FRONT_AND_BACK
        self.m_currentState.frontFaceStencilOperation0
        self.m_currentState.frontFaceStencilOperation1
        self.m_currentState.frontFaceStencilOperation2))
  |> (fun self => self.send (DriverCall.SetAlphaTest self.m_currentState.alphaTestEnabled))
  |> (fun self => self.send (DriverCall.SetAlphaFunction self.m_currentState.alphaTestFunction
        self.m_currentState.alphaTestReference))
  |> (fun self => self.send (DriverCall.SetDepthTest self.m_currentState.depthTestEnabled))
  |> (fun self => self.send (DriverCall.SetDepthFunction self.m_currentState.depthTestFunction))
  |> (fun self => self.send (DriverCall.SetBlend self.m_currentState.blendEnabled))
  |> (fun self => self.send (DriverCall.SetBlendFunction self.m_currentState.sourceBlendFunction
        self.m_currentState.destinationBlendFunction))
  |> (fun self => self.send (DriverCall.SetColorClearValue self.m_currentState.clearColor))
  |> (fun self => self.send (DriverCall.SetDepthClearValue self.m_currentState.clearDepth))
  |> (fun self => self.send (DriverCall.SetStencilClearValue self.m_currentState.clearStencil))

/-- The constructor `ContextState::ContextState`. The argument is the driver
pointer: `none` is the null pointer, `some calls` a driver that has received
`calls` so far. Both snapshots start from the default member initialisers;
the three vectors are what glm leaves in a default-constructed vector. -/
def new (stateFunctions : Option (List DriverCall)) (viewportPosition viewportDimensions : Vec2)
    (clearColor : Vec4) : Option ContextState := do
  GFW_ASSERT stateFunctions.isSome
  let driver ← stateFunctions
  return InitializeState
    { m_stateFunctions := driver
      m_currentState := ContextStateVariables.initial viewportPosition viewportDimensions clearColor
      m_recordedState := ContextStateVariables.initial viewportPosition viewportDimensions clearColor }

end ContextState

/-! ## Calls of the public interface as data -/

/-- A call of one of the setters of `ContextState`, with its arguments. -/
inductive Setter
  | SetViewport (position dimensions : Vec2)
  | SetDepthRange (min max : F32)
  | SetPointSize (size : F32)
  | SetPointAntialiasing (enabled : Bool)
  | SetLineWidth (width : F32)
  | SetLineAntialiasing (enabled : Bool)
  | SetFaceCulling (enabled : Bool)
  | SetFacesToCull (backFacing : Bool)
  | SetFrontFace (counterClockwise : Bool)
  | SetPolygonRasterization (mode : RasterizationMode)
  | SetStencilTest (enabled : Bool)
  | SetStencilFunction (face : FaceDirection) (function : TestFunction)
  | SetStencilMask (face : FaceDirection) (mask : Int)
  | SetStencilOperation (face : FaceDirection) (stencilFails depthFails pass : TestOperation)
  | SetAlphaTest (enabled : Bool)
  | SetAlphaFunction (function : TestFunction) (ref : F32)
  | SetDepthTest (enabled : Bool)
  | SetDepthFunction (function : TestFunction)
  | SetBlend (enabled : Bool)
  | SetBlendFunction (sourceFunc destinationFunc : BlendFunction)
  | SetColorClearValue (color : Vec4)
  | SetDepthClearValue (depth : F32)
  | SetStencilClearValue (stencil : Int)
  deriving DecidableEq, Repr

/-- Runs one setter call on the cache. -/
def ContextState.call (self : ContextState) : Setter → ContextState
  | Setter.SetViewport position dimensions => self.SetViewport position dimensions
  | Setter.SetDepthRange min max => self.SetDepthRange min max
  | Setter.SetPointSize size => self.SetPointSize size
  | Setter.SetPointAntialiasing enabled => self.SetPointAntialiasing enabled
  | Setter.SetLineWidth width => self.SetLineWidth width
  | Setter.SetLineAntialiasing enabled => self.SetLineAntialiasing enabled
  | Setter.SetFaceCulling enabled => self.SetFaceCulling enabled
  | Setter.SetFacesToCull backFacing => self.SetFacesToCull backFacing
  | Setter.SetFrontFace counterClockwise => self.SetFrontFace counterClockwise
  | Setter.SetPolygonRasterization mode => self.SetPolygonRasterization mode
  | Setter.SetStencilTest enabled => self.SetStencilTest enabled
  | Setter.SetStencilFunction face function => self.SetStencilFunction face function
  | Setter.SetStencilMask face mask => self.SetStencilMask face mask
  | Setter.SetStencilOperation face stencilFails depthFails pass =>
    self.SetStencilOperation face stencilFails depthFails pass
  | Setter.SetAlphaTest enabled => self.SetAlphaTest enabled
  | Setter.SetAlphaFunction function ref => self.SetAlphaFunction function ref
  | Setter.SetDepthTest enabled => self.SetDepthTest enabled
  | Setter.SetDepthFunction function => self.SetDepthFunction function
  | Setter.SetBlend enabled => self.SetBlend enabled
  | Setter.SetBlendFunction sourceFunc destinationFunc =>
    self.SetBlendFunction sourceFunc destinationFunc
  | Setter.SetColorClearValue color => self.SetColorClearValue color
  | Setter.SetDepthClearValue depth => self.SetDepthClearValue depth
  | Setter.SetStencilClearValue stencil => self.SetStencilClearValue stencil

/-- A call of a state-changing member function of the public interface. -/
inductive Operation
  | set (s : Setter)
  | RecordState
  | RestoreRecordedState
  deriving DecidableEq, Repr

/-- Runs one call of the public interface. -/
def ContextState.perform (self : ContextState) : Operation → ContextState
  | Operation.set s => self.call s
  | Operation.RecordState => self.RecordState
  | Operation.RestoreRecordedState => self.RestoreRecordedState

/-- Runs a finite sequence of calls, first element first. -/
def ContextState.run (self : ContextState) (ops : List Operation) : ContextState :=
  ops.foldl ContextState.perform self

/-- Runs a finite sequence of setter calls, first element first. -/
def ContextState.callAll (self : ContextState) (setters : List Setter) : ContextState :=
  setters.foldl ContextState.call self

/-- A cache right after construction on a driver that had received no call,
with glm vectors that start at zero. -/
def freshCache : ContextState :=
  ContextState.InitializeState
    { m_stateFunctions := []
      m_currentState := ContextStateVariables.initial Vec2.zero Vec2.zero Vec4.zero
      m_recordedState := ContextStateVariables.initial Vec2.zero Vec2.zero Vec4.zero }

/-! ## The vocabulary of the specification -/

/-- The `glm::vec2` comparison `v1 == v2`: every component compares equal. -/
def Vec2.eq (v1 v2 : Vec2) : Bool := F32.eq v1.x v2.x && F32.eq v1.y v2.y

/-- The `glm::vec4` comparison `v1 == v2`: every component compares equal. -/
def Vec4.eq (v1 v2 : Vec4) : Bool :=
  F32.eq v1.x v2.x && F32.eq v1.y v2.y && F32.eq v1.z v2.z && F32.eq v1.w v2.w

/-- Spec wording "every argument equals the value currently cached for that
state group", equality being `==` of the C++ type of the argument. The group
of a face-scoped stencil setter is the front-face value, the back-face value,
or both of them, as its selector says. -/
def Setter.matchesCache (cur : ContextStateVariables) : Setter → Bool
  | Setter.SetViewport position dimensions =>
    Vec2.eq cur.viewportPosition position && Vec2.eq cur.viewportDimensions dimensions
  | Setter.SetDepthRange min max => F32.eq cur.depthRangeMin min && F32.eq cur.depthRangeMax max
  | Setter.SetPointSize size => F32.eq cur.pointSize size
  | Setter.SetPointAntialiasing enabled => cur.pointAntialiasing == enabled
  | Setter.SetLineWidth width => F32.eq cur.lineWidth width
  | Setter.SetLineAntialiasing enabled => cur.lineAntialiasing == enabled
  | Setter.SetFaceCulling enabled => cur.faceCullingEnabled == enabled
  | Setter.SetFacesToCull backFacing => cur.cullBackFace == backFacing
  | Setter.SetFrontFace counterClockwise => cur.frontFaceCounterClockwise == counterClockwise
  | Setter.SetPolygonRasterization mode => cur.polygonRasterization == mode
  | Setter.SetStencilTest enabled => cur.stencilTestEnabled == enabled
  | Setter.SetStencilFunction FaceDirection.FRONT function =>
    cur.frontFaceStencilFunction == function
  | Setter.SetStencilFunction FaceDirection.BACK function =>
    cur.backFaceStencilFunction == function
  | Setter.SetStencilFunction FaceDirection.FRONT_AND_BACK function =>
    cur.frontFaceStencilFunction == function && cur.backFaceStencilFunction == function
  | Setter.SetStencilMask FaceDirection.FRONT mask => cur.frontFaceStencilMask == mask
  | Setter.SetStencilMask FaceDirection.BACK mask => cur.backFaceStencilMask == mask
  | Setter.SetStencilMask FaceDirection.FRONT_AND_BACK mask =>
    cur.frontFaceStencilMask == mask && cur.backFaceStencilMask == mask
  | Setter.SetStencilOperation FaceDirection.FRONT stencilFails depthFails pass =>
    cur.frontFaceStencilOperation0 == stencilFails && cur.frontFaceStencilOperation1 == depthFails
      && cur.frontFaceStencilOperation2 == pass
  | Setter.SetStencilOperation FaceDirection.BACK stencilFails depthFails pass =>
    cur.backFaceStencilOperation0 == stencilFails && cur.backFaceStencilOperation1 == depthFails
      && cur.backFaceStencilOperation2 == pass
  | Setter.SetStencilOperation FaceDirection.FRONT_AND_BACK stencilFails depthFails pass =>
    cur.frontFaceStencilOperation0 == stencilFails && cur.frontFaceStencilOperation1 == depthFails
      && cur.frontFaceStencilOperation2 == pass
      && cur.backFaceStencilOperation0 == stencilFails && cur.backFaceStencilOperation1 == depthFails
      && cur.backFaceStencilOperation2 == pass
  | Setter.SetAlphaTest enabled => cur.alphaTestEnabled == enabled
  | Setter.SetAlphaFunction function ref =>
    cur.alphaTestFunction == function && F32.eq cur.alphaTestReference ref
  | Setter.SetDepthTest enabled => cur.depthTestEnabled == enabled
  | Setter.SetDepthFunction function => cur.depthTestFunction == function
  | Setter.SetBlend enabled => cur.blendEnabled == enabled
  | Setter.SetBlendFunction sourceFunc destinationFunc =>
    cur.sourceBlendFunction == sourceFunc && cur.destinationBlendFunction == destinationFunc
  | Setter.SetColorClearValue color => Vec4.eq cur.clearColor color
  | Setter.SetDepthClearValue depth => F32.eq cur.clearDepth depth
  | Setter.SetStencilClearValue stencil => cur.clearStencil == stencil

/-- Spec wording "at least one argument differs from the value cached for that
state group", difference being `!=` of the C++ type of the argument. -/
def Setter.differsFromCache (cur : ContextStateVariables) : Setter → Bool
  | Setter.SetViewport position dimensions =>
    Vec2.ne cur.viewportPosition position || Vec2.ne cur.viewportDimensions dimensions
  | Setter.SetDepthRange min max => F32.ne cur.depthRangeMin min || F32.ne cur.depthRangeMax max
  | Setter.SetPointSize size => F32.ne cur.pointSize size
  | Setter.SetPointAntialiasing enabled => cur.pointAntialiasing != enabled
  | Setter.SetLineWidth width => F32.ne cur.lineWidth width
  | Setter.SetLineAntialiasing enabled => cur.lineAntialiasing != enabled
  | Setter.SetFaceCulling enabled => cur.faceCullingEnabled != enabled
  | Setter.SetFacesToCull backFacing => cur.cullBackFace != backFacing
  | Setter.SetFrontFace counterClockwise => cur.frontFaceCounterClockwise != counterClockwise
  | Setter.SetPolygonRasterization mode => cur.polygonRasterization != mode
  | Setter.SetStencilTest enabled => cur.stencilTestEnabled != enabled
  | Setter.SetStencilFunction FaceDirection.FRONT function =>
    cur.frontFaceStencilFunction != function
  | Setter.SetStencilFunction FaceDirection.BACK function =>
    cur.backFaceStencilFunction != function
  | Setter.SetStencilFunction FaceDirection.FRONT_AND_BACK function =>
    cur.frontFaceStencilFunction != function || cur.backFaceStencilFunction != function
  | Setter.SetStencilMask FaceDirection.FRONT mask => cur.frontFaceStencilMask != mask
  | Setter.SetStencilMask FaceDirection.BACK mask => cur.backFaceStencilMask != mask
  | Setter.SetStencilMask FaceDirection.FRONT_AND_BACK mask =>
    cur.frontFaceStencilMask != mask || cur.backFaceStencilMask != mask
  | Setter.SetStencilOperation FaceDirection.FRONT stencilFails depthFails pass =>
    cur.frontFaceStencilOperation0 != stencilFails || cur.frontFaceStencilOperation1 != depthFails
      || cur.frontFaceStencilOperation2 != pass
  | Setter.SetStencilOperation FaceDirection.BACK stencilFails depthFails pass =>
    cur.backFaceStencilOperation0 != stencilFails || cur.backFaceStencilOperation1 != depthFails
      || cur.backFaceStencilOperation2 != pass
  | Setter.SetStencilOperation FaceDirection.FRONT_AND_BACK stencilFails depthFails pass =>
    cur.frontFaceStencilOperation0 != stencilFails || cur.frontFaceStencilOperation1 != depthFails
      || cur.frontFaceStencilOperation2 != pass
      || cur.backFaceStencilOperation0 != stencilFails || cur.backFaceStencilOperation1 != depthFails
      || cur.backFaceStencilOperation2 != pass
  | Setter.SetAlphaTest enabled => cur.alphaTestEnabled != enabled
  | Setter.SetAlphaFunction function ref =>
    cur.alphaTestFunction != function || F32.ne cur.alphaTestReference ref
  | Setter.SetDepthTest enabled => cur.depthTestEnabled != enabled
  | Setter.SetDepthFunction function => cur.depthTestFunction != function
  | Setter.SetBlend enabled => cur.blendEnabled != enabled
  | Setter.SetBlendFunction sourceFunc destinationFunc =>
    cur.sourceBlendFunction != sourceFunc || cur.destinationBlendFunction != destinationFunc
  | Setter.SetColorClearValue color => Vec4.ne cur.clearColor color
  | Setter.SetDepthClearValue depth => F32.ne cur.clearDepth depth
  | Setter.SetStencilClearValue stencil => cur.clearStencil != stencil

/-- The driver method that matches a setter, carrying all the arguments of the
setter call (`SetFaceCulling` is served by the driver method `SetCullFace`). -/
def Setter.driverCall : Setter → DriverCall
  | Setter.SetViewport position dimensions => DriverCall.SetViewport position dimensions
  | Setter.SetDepthRange min max => DriverCall.SetDepthRange min max
  | Setter.SetPointSize size => DriverCall.SetPointSize size
  | Setter.SetPointAntialiasing enabled => DriverCall.SetPointAntialiasing enabled
  | Setter.SetLineWidth width => DriverCall.SetLineWidth width
  | Setter.SetLineAntialiasing enabled => DriverCall.SetLineAntialiasing enabled
  | Setter.SetFaceCulling enabled => DriverCall.SetCullFace enabled
  | Setter.SetFacesToCull backFacing => DriverCall.SetFacesToCull backFacing
  | Setter.SetFrontFace counterClockwise => DriverCall.SetFrontFace counterClockwise
  | Setter.SetPolygonRasterization mode => DriverCall.SetPolygonRasterization mode
  | Setter.SetStencilTest enabled => DriverCall.SetStencilTest enabled
  | Setter.SetStencilFunction face function => DriverCall.SetStencilFunction face function
  | Setter.SetStencilMask face mask => DriverCall.SetStencilMask face mask
  | Setter.SetStencilOperation face stencilFails depthFails pass =>
    DriverCall.SetStencilOperation face stencilFails depthFails pass
  | Setter.SetAlphaTest enabled => DriverCall.SetAlphaTest enabled
  | Setter.SetAlphaFunction function ref => DriverCall.SetAlphaFunction function ref
  | Setter.SetDepthTest enabled => DriverCall.SetDepthTest enabled
  | Setter.SetDepthFunction function => DriverCall.SetDepthFunction function
  | Setter.SetBlend enabled => DriverCall.SetBlend enabled
  | Setter.SetBlendFunction sourceFunc destinationFunc =>
    DriverCall.SetBlendFunction sourceFunc destinationFunc
  | Setter.SetColorClearValue color => DriverCall.SetColorClearValue color
  | Setter.SetDepthClearValue depth => DriverCall.SetDepthClearValue depth
  | Setter.SetStencilClearValue stencil => DriverCall.SetStencilClearValue stencil

/-- Spec wording "every field of the group in the current snapshot holds the
new value": the stored fields are the arguments themselves. -/
def Setter.storedIn (cur : ContextStateVariables) : Setter → Prop
  | Setter.SetViewport position dimensions =>
    cur.viewportPosition = position ∧ cur.viewportDimensions = dimensions
  | Setter.SetDepthRange min max => cur.depthRangeMin = min ∧ cur.depthRangeMax = max
  | Setter.SetPointSize size => cur.pointSize = size
  | Setter.SetPointAntialiasing enabled => cur.pointAntialiasing = enabled
  | Setter.SetLineWidth width => cur.lineWidth = width
  | Setter.SetLineAntialiasing enabled => cur.lineAntialiasing = enabled
  | Setter.SetFaceCulling enabled => cur.faceCullingEnabled = enabled
  | Setter.SetFacesToCull backFacing => cur.cullBackFace = backFacing
  | Setter.SetFrontFace counterClockwise => cur.frontFaceCounterClockwise = counterClockwise
  | Setter.SetPolygonRasterization mode => cur.polygonRasterization = mode
  | Setter.SetStencilTest enabled => cur.stencilTestEnabled = enabled
  | Setter.SetStencilFunction FaceDirection.FRONT function =>
    cur.frontFaceStencilFunction = function
  | Setter.SetStencilFunction FaceDirection.BACK function =>
    cur.backFaceStencilFunction = function
  | Setter.SetStencilFunction FaceDirection.FRONT_AND_BACK function =>
    cur.frontFaceStencilFunction = function ∧ cur.backFaceStencilFunction = function
  | Setter.SetStencilMask FaceDirection.FRONT mask => cur.frontFaceStencilMask = mask
  | Setter.SetStencilMask FaceDirection.BACK mask => cur.backFaceStencilMask = mask
  | Setter.SetStencilMask FaceDirection.FRONT_AND_BACK mask =>
    cur.frontFaceStencilMask = mask ∧ cur.backFaceStencilMask = mask
  | Setter.SetStencilOperation FaceDirection.FRONT stencilFails depthFails pass =>
    cur.frontFaceStencilOperation0 = stencilFails ∧ cur.frontFaceStencilOperation1 = depthFails
      ∧ cur.frontFaceStencilOperation2 = pass
  | Setter.SetStencilOperation FaceDirection.BACK stencilFails depthFails pass =>
    cur.backFaceStencilOperation0 = stencilFails ∧ cur.backFaceStencilOperation1 = depthFails
      ∧ cur.backFaceStencilOperation2 = pass
  | Setter.SetStencilOperation FaceDirection.FRONT_AND_BACK stencilFails depthFails pass =>
    cur.frontFaceStencilOperation0 = stencilFails ∧ cur.frontFaceStencilOperation1 = depthFails
      ∧ cur.frontFaceStencilOperation2 = pass
      ∧ cur.backFaceStencilOperation0 = stencilFails ∧ cur.backFaceStencilOperation1 = depthFails
      ∧ cur.backFaceStencilOperation2 = pass
  | Setter.SetAlphaTest enabled => cur.alphaTestEnabled = enabled
  | Setter.SetAlphaFunction function ref =>
    cur.alphaTestFunction = function ∧ cur.alphaTestReference = ref
  | Setter.SetDepthTest enabled => cur.depthTestEnabled = enabled
  | Setter.SetDepthFunction function => cur.depthTestFunction = function
  | Setter.SetBlend enabled => cur.blendEnabled = enabled
  | Setter.SetBlendFunction sourceFunc destinationFunc =>
    cur.sourceBlendFunction = sourceFunc ∧ cur.destinationBlendFunction = destinationFunc
  | Setter.SetColorClearValue color => cur.clearColor = color
  | Setter.SetDepthClearValue depth => cur.clearDepth = depth
  | Setter.SetStencilClearValue stencil => cur.clearStencil = stencil

/-- Two floats are the same value up to the sign of a zero: identical, or both
a zero. -/
def F32.sameUpToZeroSign (a b : F32) : Prop := a = b ∨ (a.isZero = true ∧ b.isZero = true)

/-- Component by component the same up to the sign of a zero. -/
def Vec2.sameUpToZeroSign (v1 v2 : Vec2) : Prop :=
  F32.sameUpToZeroSign v1.x v2.x ∧ F32.sameUpToZeroSign v1.y v2.y

/-- Component by component the same up to the sign of a zero. -/
def Vec4.sameUpToZeroSign (v1 v2 : Vec4) : Prop :=
  F32.sameUpToZeroSign v1.x v2.x ∧ F32.sameUpToZeroSign v1.y v2.y
    ∧ F32.sameUpToZeroSign v1.z v2.z ∧ F32.sameUpToZeroSign v1.w v2.w

/-- Spec wording "the corresponding getter returns exactly the value(s) just
passed". The getters of a face-scoped stencil setter are the per-face getters
of the face or faces its selector names. -/
def Setter.readBack (c : ContextState) : Setter → Prop
  | Setter.SetViewport position dimensions =>
    c.GetViewportPosition = position ∧ c.GetViewportDimensions = dimensions
  | Setter.SetDepthRange min max => c.GetDepthRange = (min, max)
  | Setter.SetPointSize size => c.GetPointSize = size
  | Setter.SetPointAntialiasing enabled => c.IsPointAntialiasingEnabled = enabled
  | Setter.SetLineWidth width => c.GetLineWidth = width
  | Setter.SetLineAntialiasing enabled => c.IsLineAntialiasingEnabled = enabled
  | Setter.SetFaceCulling enabled => c.IsFaceCullingEnabled = enabled
  | Setter.SetFacesToCull backFacing => c.IsCullingBackFaces = backFacing
  | Setter.SetFrontFace counterClockwise => c.FrontFaceIsCounterClockwise = counterClockwise
  | Setter.SetPolygonRasterization mode => c.GetPolygonRasterization = mode
  | Setter.SetStencilTest enabled => c.IsStencilTestEnabled = enabled
  | Setter.SetStencilFunction FaceDirection.FRONT function =>
    c.GetFrontFaceStencilFunction = function
  | Setter.SetStencilFunction FaceDirection.BACK function =>
    c.GetBackFaceStencilFunction = function
  | Setter.SetStencilFunction FaceDirection.FRONT_AND_BACK function =>
    c.GetFrontFaceStencilFunction = function ∧ c.GetBackFaceStencilFunction = function
  | Setter.SetStencilMask FaceDirection.FRONT mask => c.GetFrontFaceStencilMask = mask
  | Setter.SetStencilMask FaceDirection.BACK mask => c.GetBackFaceStencilMask = mask
  | Setter.SetStencilMask FaceDirection.FRONT_AND_BACK mask =>
    c.GetFrontFaceStencilMask = mask ∧ c.GetBackFaceStencilMask = mask
  | Setter.SetStencilOperation FaceDirection.FRONT stencilFails depthFails pass =>
    c.GetFrontFaceStencilOperation = (stencilFails, depthFails, pass)
  | Setter.SetStencilOperation FaceDirection.BACK stencilFails depthFails pass =>
    c.GetBackFaceStencilOperation = (stencilFails, depthFails, pass)
  | Setter.SetStencilOperation FaceDirection.FRONT_AND_BACK stencilFails depthFails pass =>
    c.GetFrontFaceStencilOperation = (stencilFails, depthFails, pass)
      ∧ c.GetBackFaceStencilOperation = (stencilFails, depthFails, pass)
  | Setter.SetAlphaTest enabled => c.IsAlphaTestEnabled = enabled
  | Setter.SetAlphaFunction function ref => c.GetAlphaFunction = (function, ref)
  | Setter.SetDepthTest enabled => c.IsDepthTestEnabled = enabled
  | Setter.SetDepthFunction function => c.GetDepthFunction = function
  | Setter.SetBlend enabled => c.IsBlendingEnabled = enabled
  | Setter.SetBlendFunction sourceFunc destinationFunc =>
    c.GetSourceBlendFunction = sourceFunc ∧ c.GetDestinationBlendFunction = destinationFunc
  | Setter.SetColorClearValue color => c.GetColorClearCalue = color
  | Setter.SetDepthClearValue depth => c.GetDepthClearValue = depth
  | Setter.SetStencilClearValue stencil => c.GetStencilClearValue = stencil

/-- The getter of a setter returns the value(s) just passed, a float being
allowed to differ from the argument in the sign of a zero; every value that is
not a float is returned exactly. -/
def Setter.readBackUpToZeroSign (c : ContextState) : Setter → Prop
  | Setter.SetViewport position dimensions =>
    Vec2.sameUpToZeroSign c.GetViewportPosition position
      ∧ Vec2.sameUpToZeroSign c.GetViewportDimensions dimensions
  | Setter.SetDepthRange min max =>
    F32.sameUpToZeroSign c.GetDepthRange.1 min ∧ F32.sameUpToZeroSign c.GetDepthRange.2 max
  | Setter.SetPointSize size => F32.sameUpToZeroSign c.GetPointSize size
  | Setter.SetLineWidth width => F32.sameUpToZeroSign c.GetLineWidth width
  | Setter.SetAlphaFunction function ref =>
    c.GetAlphaFunction.1 = function ∧ F32.sameUpToZeroSign c.GetAlphaFunction.2 ref
  | Setter.SetColorClearValue color => Vec4.sameUpToZeroSign c.GetColorClearCalue color
  | Setter.SetDepthClearValue depth => F32.sameUpToZeroSign c.GetDepthClearValue depth
  | s => Setter.readBack c s

/-- Some float among the arguments of the setter call is a NaN. -/
def Setter.hasNaN : Setter → Bool
  | Setter.SetViewport position dimensions =>
    position.x.isNaN || position.y.isNaN || dimensions.x.isNaN || dimensions.y.isNaN
  | Setter.SetDepthRange min max => min.isNaN || max.isNaN
  | Setter.SetPointSize size => size.isNaN
  | Setter.SetLineWidth width => width.isNaN
  | Setter.SetAlphaFunction _ ref => ref.isNaN
  | Setter.SetColorClearValue color =>
    color.x.isNaN || color.y.isNaN || color.z.isNaN || color.w.isNaN
  | Setter.SetDepthClearValue depth => depth.isNaN
  | _ => false

/-- The live state of the driver as the claims model it: the record left
behind by one driver call, every method overwriting the fields it carries. A
stencil call with the selector FRONT_AND_BACK writes both faces. -/
def DriverCall.applyTo (d : ContextStateVariables) : DriverCall → ContextStateVariables
  | DriverCall.SetViewport position dimensions =>
    { d with viewportPosition := position, viewportDimensions := dimensions }
  | DriverCall.SetDepthRange min max => { d with depthRangeMin := min, depthRangeMax := max }
  | DriverCall.SetPointSize size => { d with pointSize := size }
  | DriverCall.SetPointAntialiasing enabled => { d with pointAntialiasing := enabled }
  | DriverCall.SetLineWidth width => { d with lineWidth := width }
  | DriverCall.SetLineAntialiasing enabled => { d with lineAntialiasing := enabled }
  | DriverCall.SetCullFace enabled => { d with faceCullingEnabled := enabled }
  | DriverCall.SetFacesToCull backFacing => { d with cullBackFace := backFacing }
  | DriverCall.SetFrontFace counterClockwise =>
    { d with frontFaceCounterClockwise := counterClockwise }
  | DriverCall.SetPolygonRasterization mode => { d with polygonRasterization := mode }
  | DriverCall.SetStencilTest enabled => { d with stencilTestEnabled := enabled }
  | DriverCall.SetStencilFunction FaceDirection.FRONT function =>
    { d with frontFaceStencilFunction := function }
  | DriverCall.SetStencilFunction FaceDirection.BACK function =>
    { d with backFaceStencilFunction := function }
  | DriverCall.SetStencilFunction FaceDirection.FRONT_AND_BACK function =>
    { d with frontFaceStencilFunction := function, backFaceStencilFunction := function }
  | DriverCall.SetStencilMask FaceDirection.FRONT mask => { d with frontFaceStencilMask := mask }
  | DriverCall.SetStencilMask FaceDirection.BACK mask => { d with backFaceStencilMask := mask }
  | DriverCall.SetStencilMask FaceDirection.FRONT_AND_BACK mask =>
    { d with frontFaceStencilMask := mask, backFaceStencilMask := mask }
  | DriverCall.SetStencilOperation FaceDirection.FRONT stencilFails depthFails pass =>
    { d with frontFaceStencilOperation0 := stencilFails, frontFaceStencilOperation1 := depthFails,
             frontFaceStencilOperation2 := pass }
  | DriverCall.SetStencilOperation FaceDirection.BACK stencilFails depthFails pass =>
    { d with backFaceStencilOperation0 := stencilFails, backFaceStencilOperation1 := depthFails,
             backFaceStencilOperation2 := pass }
  | DriverCall.SetStencilOperation FaceDirection.FRONT_AND_BACK stencilFails depthFails pass =>
    { d with frontFaceStencilOperation0 := stencilFails, frontFaceStencilOperation1 := depthFails,
             frontFaceStencilOperation2 := pass, backFaceStencilOperation0 := stencilFails,
             backFaceStencilOperation1 := depthFails, backFaceStencilOperation2 := pass }
  | DriverCall.SetAlphaTest enabled => { d with alphaTestEnabled := enabled }
  | DriverCall.SetAlphaFunction function ref =>
    { d with alphaTestFunction := function, alphaTestReference := ref }
  | DriverCall.SetDepthTest enabled => { d with depthTestEnabled := enabled }
  | DriverCall.SetDepthFunction function => { d with depthTestFunction := function }
  | DriverCall.SetBlend enabled => { d with blendEnabled := enabled }
  | DriverCall.SetBlendFunction sourceFunc destinationFunc =>
    { d with sourceBlendFunction := sourceFunc, destinationBlendFunction := destinationFunc }
  | DriverCall.SetColorClearValue color => { d with clearColor := color }
  | DriverCall.SetDepthClearValue depth => { d with clearDepth := depth }
  | DriverCall.SetStencilClearValue stencil => { d with clearStencil := stencil }

/-- The modelled driver state after the driver, starting in state `d`, has
received `calls`, oldest first. -/
def driverState (d : ContextStateVariables) (calls : List DriverCall) : ContextStateVariables :=
  calls.foldl DriverCall.applyTo d

/-! ## State groups and the calls of `RestoreRecordedState` -/

/-- The state groups of the cache: one per setter, and one per face selector
for each of the three face-scoped stencil setters. -/
inductive StateGroup
  | Viewport
  | DepthRange
  | PointSize
  | PointAntialiasing
  | LineWidth
  | LineAntialiasing
  | FaceCulling
  | FacesToCull
  | FrontFace
  | PolygonRasterization
  | StencilTest
  | StencilFunction (face : FaceDirection)
  | StencilMask (face : FaceDirection)
  | StencilOperation (face : FaceDirection)
  | AlphaTest
  | AlphaFunction
  | DepthTest
  | DepthFunction
  | Blend
  | BlendFunction
  | ColorClearValue
  | DepthClearValue
  | StencilClearValue
  deriving DecidableEq, Repr

/-- The type of the value of a state group: the arguments its setter takes,
the face selector apart. -/
def StateGroup.Value : StateGroup → Type
  | StateGroup.Viewport => Vec2 × Vec2
  | StateGroup.DepthRange => F32 × F32
  | StateGroup.PointSize => F32
  | StateGroup.PointAntialiasing => Bool
  | StateGroup.LineWidth => F32
  | StateGroup.LineAntialiasing => Bool
  | StateGroup.FaceCulling => Bool
  | StateGroup.FacesToCull => Bool
  | StateGroup.FrontFace => Bool
  | StateGroup.PolygonRasterization => RasterizationMode
  | StateGroup.StencilTest => Bool
  | StateGroup.StencilFunction _ => TestFunction
  | StateGroup.StencilMask _ => Int
  | StateGroup.StencilOperation _ => TestOperation × TestOperation × TestOperation
  | StateGroup.AlphaTest => Bool
  | StateGroup.AlphaFunction => TestFunction × F32
  | StateGroup.DepthTest => Bool
  | StateGroup.DepthFunction => TestFunction
  | StateGroup.Blend => Bool
  | StateGroup.BlendFunction => GFW.BlendFunction × GFW.BlendFunction
  | StateGroup.ColorClearValue => Vec4
  | StateGroup.DepthClearValue => F32
  | StateGroup.StencilClearValue => Int

/-- The call of the setter of a state group with a given value. -/
def StateGroup.setter : (g : StateGroup) → g.Value → Setter
  | StateGroup.Viewport, v => Setter.SetViewport v.1 v.2
  | StateGroup.DepthRange, v => Setter.SetDepthRange v.1 v.2
  | StateGroup.PointSize, v => Setter.SetPointSize v
  | StateGroup.PointAntialiasing, v => Setter.SetPointAntialiasing v
  | StateGroup.LineWidth, v => Setter.SetLineWidth v
  | StateGroup.LineAntialiasing, v => Setter.SetLineAntialiasing v
  | StateGroup.FaceCulling, v => Setter.SetFaceCulling v
  | StateGroup.FacesToCull, v => Setter.SetFacesToCull v
  | StateGroup.FrontFace, v => Setter.SetFrontFace v
  | StateGroup.PolygonRasterization, v => Setter.SetPolygonRasterization v
  | StateGroup.StencilTest, v => Setter.SetStencilTest v
  | StateGroup.StencilFunction face, v => Setter.SetStencilFunction face v
  | StateGroup.StencilMask face, v => Setter.SetStencilMask face v
  | StateGroup.StencilOperation face, v => Setter.SetStencilOperation face v.1 v.2.1 v.2.2
  | StateGroup.AlphaTest, v => Setter.SetAlphaTest v
  | StateGroup.AlphaFunction, v => Setter.SetAlphaFunction v.1 v.2
  | StateGroup.DepthTest, v => Setter.SetDepthTest v
  | StateGroup.DepthFunction, v => Setter.SetDepthFunction v
  | StateGroup.Blend, v => Setter.SetBlend v
  | StateGroup.BlendFunction, v => Setter.SetBlendFunction v.1 v.2
  | StateGroup.ColorClearValue, v => Setter.SetColorClearValue v
  | StateGroup.DepthClearValue, v => Setter.SetDepthClearValue v
  | StateGroup.StencilClearValue, v => Setter.SetStencilClearValue v

/-- The twenty-two setter calls of `RestoreRecordedState` in source order, each
as a function of the snapshot its arguments are read from. -/
def restoreCalls : List (ContextStateVariables → Setter) :=
  [ fun cur => Setter.SetDepthRange cur.depthRangeMin cur.depthRangeMax,
    fun cur => Setter.SetPointSize cur.pointSize,
    fun cur => Setter.SetPointAntialiasing cur.pointAntialiasing,
    fun cur => Setter.SetLineWidth cur.lineWidth,
    fun cur => Setter.SetLineAntialiasing cur.lineAntialiasing,
    fun cur => Setter.SetFaceCulling cur.faceCullingEnabled,
    fun cur => Setter.SetFacesToCull cur.cullBackFace,
    fun cur => Setter.SetFrontFace cur.frontFaceCounterClockwise,
    fun cur => Setter.SetPolygonRasterization cur.polygonRasterization,
    fun cur => Setter.SetStencilTest cur.stencilTestEnabled,
    fun cur => Setter.SetStencilFunction FaceDirection.FRONT_AND_BACK cur.frontFaceStencilFunction,
    fun cur => Setter.SetStencilMask FaceDirection.FRONT_AND_BACK cur.frontFaceStencilMask,
    fun cur => Setter.SetStencilOperation FaceDirection.FRONT_AND_BACK
      cur.frontFaceStencilOperation0 cur.frontFaceStencilOperation1
      cur.frontFaceStencilOperation2,
    fun cur => Setter.SetAlphaTest cur.alphaTestEnabled,
    fun cur => Setter.SetAlphaFunction cur.alphaTestFunction cur.alphaTestReference,
    fun cur => Setter.SetDepthTest cur.depthTestEnabled,
    fun cur => Setter.SetDepthFunction cur.depthTestFunction,
    fun cur => Setter.SetBlend cur.blendEnabled,
    fun cur => Setter.SetBlendFunction cur.sourceBlendFunction cur.destinationBlendFunction,
    fun cur => Setter.SetColorClearValue cur.clearColor,
    fun cur => Setter.SetDepthClearValue cur.clearDepth,
    fun cur => Setter.SetStencilClearValue cur.clearStencil ]

/-- One setter call whose arguments are read from the current snapshot at the
moment of the call. -/
def ContextState.callWith (self : ContextState) (f : ContextStateVariables → Setter) :
    ContextState :=
  self.call (f self.m_currentState)

/-- Runs such setter calls one after the other, first element first. -/
def ContextState.callEach (self : ContextState) (calls : List (ContextStateVariables → Setter)) :
    ContextState :=
  calls.foldl ContextState.callWith self

/-! ## Groups of setters and the outcome of `RestoreRecordedState` -/

/-- The state group a setter belongs to. A face-scoped stencil setter belongs,
whatever its face selector, to the group of both faces. -/
def Setter.group : Setter → StateGroup
  | Setter.SetViewport _ _ => StateGroup.Viewport
  | Setter.SetDepthRange _ _ => StateGroup.DepthRange
  | Setter.SetPointSize _ => StateGroup.PointSize
  | Setter.SetPointAntialiasing _ => StateGroup.PointAntialiasing
  | Setter.SetLineWidth _ => StateGroup.LineWidth
  | Setter.SetLineAntialiasing _ => StateGroup.LineAntialiasing
  | Setter.SetFaceCulling _ => StateGroup.FaceCulling
  | Setter.SetFacesToCull _ => StateGroup.FacesToCull
  | Setter.SetFrontFace _ => StateGroup.FrontFace
  | Setter.SetPolygonRasterization _ => StateGroup.PolygonRasterization
  | Setter.SetStencilTest _ => StateGroup.StencilTest
  | Setter.SetStencilFunction _ _ => StateGroup.StencilFunction FaceDirection.FRONT_AND_BACK
  | Setter.SetStencilMask _ _ => StateGroup.StencilMask FaceDirection.FRONT_AND_BACK
  | Setter.SetStencilOperation _ _ _ _ => StateGroup.StencilOperation FaceDirection.FRONT_AND_BACK
  | Setter.SetAlphaTest _ => StateGroup.AlphaTest
  | Setter.SetAlphaFunction _ _ => StateGroup.AlphaFunction
  | Setter.SetDepthTest _ => StateGroup.DepthTest
  | Setter.SetDepthFunction _ => StateGroup.DepthFunction
  | Setter.SetBlend _ => StateGroup.Blend
  | Setter.SetBlendFunction _ _ => StateGroup.BlendFunction
  | Setter.SetColorClearValue _ => StateGroup.ColorClearValue
  | Setter.SetDepthClearValue _ => StateGroup.DepthClearValue
  | Setter.SetStencilClearValue _ => StateGroup.StencilClearValue

/-- The snapshot `rest` with the fields of one state group taken from the
snapshot `group` instead: two snapshots that differ at most in the fields of
the group are sent to the same snapshot. -/
def StateGroup.withFieldsFrom (g : StateGroup) (rest group : ContextStateVariables) :
    ContextStateVariables :=
  match g with
  | StateGroup.Viewport =>
    { rest with viewportPosition := group.viewportPosition,
                viewportDimensions := group.viewportDimensions }
  | StateGroup.DepthRange =>
    { rest with depthRangeMin := group.depthRangeMin, depthRangeMax := group.depthRangeMax }
  | StateGroup.PointSize => { rest with pointSize := group.pointSize }
  | StateGroup.PointAntialiasing => { rest with pointAntialiasing := group.pointAntialiasing }
  | StateGroup.LineWidth => { rest with lineWidth := group.lineWidth }
  | StateGroup.LineAntialiasing => { rest with lineAntialiasing := group.lineAntialiasing }
  | StateGroup.FaceCulling => { rest with faceCullingEnabled := group.faceCullingEnabled }
  | StateGroup.FacesToCull => { rest with cullBackFace := group.cullBackFace }
  | StateGroup.FrontFace =>
    { rest with frontFaceCounterClockwise := group.frontFaceCounterClockwise }
  | StateGroup.PolygonRasterization =>
    { rest with polygonRasterization := group.polygonRasterization }
  | StateGroup.StencilTest => { rest with stencilTestEnabled := group.stencilTestEnabled }
  | StateGroup.StencilFunction FaceDirection.FRONT =>
    { rest with frontFaceStencilFunction := group.frontFaceStencilFunction }
  | StateGroup.StencilFunction FaceDirection.BACK =>
    { rest with backFaceStencilFunction := group.backFaceStencilFunction }
  | StateGroup.StencilFunction FaceDirection.FRONT_AND_BACK =>
    { rest with frontFaceStencilFunction := group.frontFaceStencilFunction,
                backFaceStencilFunction := group.backFaceStencilFunction }
  | StateGroup.StencilMask FaceDirection.FRONT =>
    { rest with frontFaceStencilMask := group.frontFaceStencilMask }
  | StateGroup.StencilMask FaceDirection.BACK =>
    { rest with backFaceStencilMask := group.backFaceStencilMask }
  | StateGroup.StencilMask FaceDirection.FRONT_AND_BACK =>
    { rest with frontFaceStencilMask := group.frontFaceStencilMask,
                backFaceStencilMask := group.backFaceStencilMask }
  | StateGroup.StencilOperation FaceDirection.FRONT =>
    { rest with frontFaceStencilOperation0 := group.frontFaceStencilOperation0,
                frontFaceStencilOperation1 := group.frontFaceStencilOperation1,
                frontFaceStencilOperation2 := group.frontFaceStencilOperation2 }
  | StateGroup.StencilOperation FaceDirection.BACK =>
    { rest with backFaceStencilOperation0 := group.backFaceStencilOperation0,
                backFaceStencilOperation1 := group.backFaceStencilOperation1,
                backFaceStencilOperation2 := group.backFaceStencilOperation2 }
  | StateGroup.StencilOperation FaceDirection.FRONT_AND_BACK =>
    { rest with frontFaceStencilOperation0 := group.frontFaceStencilOperation0,
                frontFaceStencilOperation1 := group.frontFaceStencilOperation1,
                frontFaceStencilOperation2 := group.frontFaceStencilOperation2,
                backFaceStencilOperation0 := group.backFaceStencilOperation0,
                backFaceStencilOperation1 := group.backFaceStencilOperation1,
                backFaceStencilOperation2 := group.backFaceStencilOperation2 }
  | StateGroup.AlphaTest => { rest with alphaTestEnabled := group.alphaTestEnabled }
  | StateGroup.AlphaFunction =>
    { rest with alphaTestFunction := group.alphaTestFunction,
                alphaTestReference := group.alphaTestReference }
  | StateGroup.DepthTest => { rest with depthTestEnabled := group.depthTestEnabled }
  | StateGroup.DepthFunction => { rest with depthTestFunction := group.depthTestFunction }
  | StateGroup.Blend => { rest with blendEnabled := group.blendEnabled }
  | StateGroup.BlendFunction =>
    { rest with sourceBlendFunction := group.sourceBlendFunction,
                destinationBlendFunction := group.destinationBlendFunction }
  | StateGroup.ColorClearValue => { rest with clearColor := group.clearColor }
  | StateGroup.DepthClearValue => { rest with clearDepth := group.clearDepth }
  | StateGroup.StencilClearValue => { rest with clearStencil := group.clearStencil }

/-- Some float that `RestoreRecordedState` passes to a setter is a NaN: any
float of the snapshot other than the viewport. -/
def ContextStateVariables.hasNaN (cur : ContextStateVariables) : Bool :=
  cur.depthRangeMin.isNaN || cur.depthRangeMax.isNaN || cur.pointSize.isNaN
    || cur.lineWidth.isNaN || cur.alphaTestReference.isNaN
    || cur.clearColor.x.isNaN || cur.clearColor.y.isNaN || cur.clearColor.z.isNaN
    || cur.clearColor.w.isNaN || cur.clearDepth.isNaN

/-- The snapshot `RestoreRecordedState` leaves behind for a recorded snapshot:
the recorded one with the back-face stencil function, mask and operations
replaced by the front-face ones. -/
def ContextStateVariables.withBackFromFront (rec : ContextStateVariables) :
    ContextStateVariables :=
  { rec with
    backFaceStencilFunction := rec.frontFaceStencilFunction
    backFaceStencilMask := rec.frontFaceStencilMask
    backFaceStencilOperation0 := rec.frontFaceStencilOperation0
    backFaceStencilOperation1 := rec.frontFaceStencilOperation1
    backFaceStencilOperation2 := rec.frontFaceStencilOperation2 }

/-- The stencil calls that the claims ascribe to `RestoreRecordedState` for a
recorded snapshot: in the order function, mask, operation, one FRONT_AND_BACK
call carrying the recorded front-face value for each of the three groups whose
recorded front-face and back-face values differ. -/
def ContextStateVariables.restoreStencilCalls (rec : ContextStateVariables) : List DriverCall :=
  (if rec.frontFaceStencilFunction ≠ rec.backFaceStencilFunction then
      [DriverCall.SetStencilFunction FaceDirection.FRONT_AND_BACK rec.frontFaceStencilFunction]
    else [])
  ++ (if rec.frontFaceStencilMask ≠ rec.backFaceStencilMask then
      [DriverCall.SetStencilMask FaceDirection.FRONT_AND_BACK rec.frontFaceStencilMask]
    else [])
  ++ (if rec.frontFaceStencilOperation0 ≠ rec.backFaceStencilOperation0
        ∨ rec.frontFaceStencilOperation1 ≠ rec.backFaceStencilOperation1
        ∨ rec.frontFaceStencilOperation2 ≠ rec.backFaceStencilOperation2 then
      [DriverCall.SetStencilOperation FaceDirection.FRONT_AND_BACK rec.frontFaceStencilOperation0
        rec.frontFaceStencilOperation1 rec.frontFaceStencilOperation2]
    else [])

/-! ## Lemmas on the comparisons and on a single setter call -/

/-- The float comparison `!=` is the negation of `==`. -/
theorem float_ne_eq_not_eq (a b : F32) : F32.ne a b = !F32.eq a b := rfl

/-- On `glm::vec2`, `!=` is the negation of `==`. -/
theorem vec2_ne_eq_not_eq (a b : Vec2) : Vec2.ne a b = !Vec2.eq a b := by
  simp [Vec2.ne, Vec2.eq, F32.ne, Bool.not_and]

/-- On `glm::vec4`, `!=` is the negation of `==`. -/
theorem vec4_ne_eq_not_eq (a b : Vec4) : Vec4.ne a b = !Vec4.eq a b := by
  simp [Vec4.ne, Vec4.eq, F32.ne, Bool.not_and]

/-- "Some argument differs" is the negation of "every argument equals". -/
theorem Setter.differsFromCache_eq_not_matchesCache (cur : ContextStateVariables) (s : Setter) :
    s.differsFromCache cur = !s.matchesCache cur := by
  cases s
  case SetStencilFunction face _ =>
    cases face <;> simp [Setter.differsFromCache, Setter.matchesCache, Bool.not_and, bne]
  case SetStencilMask face _ =>
    cases face <;> simp [Setter.differsFromCache, Setter.matchesCache, Bool.not_and, bne]
  case SetStencilOperation face _ _ _ =>
    cases face <;> simp [Setter.differsFromCache, Setter.matchesCache, Bool.not_and, bne]
  all_goals
    simp [Setter.differsFromCache, Setter.matchesCache, float_ne_eq_not_eq, vec2_ne_eq_not_eq,
        vec4_ne_eq_not_eq, Bool.not_and, bne]

/-- The cache `freshCache` is what the constructor returns on a driver without
earlier calls when glm vectors start at zero. -/
theorem new_eq_freshCache :
    ContextState.new (some []) Vec2.zero Vec2.zero Vec4.zero = some freshCache := rfl

/-- When the guard of a setter holds, the driver receives the matching call,
the fields of the group take the arguments and the recorded snapshot stays. -/
theorem ContextState.call_of_differs (c : ContextState) (s : Setter)
    (h : s.differsFromCache c.m_currentState = true) :
    (c.call s).m_stateFunctions = c.m_stateFunctions ++ [s.driverCall]
      ∧ s.storedIn (c.call s).m_currentState
      ∧ (c.call s).m_recordedState = c.m_recordedState := by
  cases s
  case SetStencilFunction face _ =>
    cases face <;> simp only [Setter.differsFromCache] at h <;>
      simp [ContextState.call, ContextState.SetStencilFunction, h, ContextState.send,
        Setter.driverCall, Setter.storedIn]
  case SetStencilMask face _ =>
    cases face <;> simp only [Setter.differsFromCache] at h <;>
      simp [ContextState.call, ContextState.SetStencilMask, h, ContextState.send,
        Setter.driverCall, Setter.storedIn]
  case SetStencilOperation face _ _ _ =>
    cases face <;> simp only [Setter.differsFromCache] at h <;>
      simp [ContextState.call, ContextState.SetStencilOperation, h, ContextState.send,
        Setter.driverCall, Setter.storedIn]
  all_goals
    simp only [Setter.differsFromCache] at h
    simp [ContextState.call, ContextState.SetViewport, ContextState.SetDepthRange,
      ContextState.SetPointSize, ContextState.SetPointAntialiasing, ContextState.SetLineWidth,
      ContextState.SetLineAntialiasing, ContextState.SetFaceCulling, ContextState.SetFacesToCull,
      ContextState.SetFrontFace, ContextState.SetPolygonRasterization, ContextState.SetStencilTest,
      ContextState.SetAlphaTest, ContextState.SetAlphaFunction, ContextState.SetDepthTest,
      ContextState.SetDepthFunction, ContextState.SetBlend, ContextState.SetBlendFunction,
      ContextState.SetColorClearValue, ContextState.SetDepthClearValue,
      ContextState.SetStencilClearValue, h, ContextState.send,
      Setter.driverCall, Setter.storedIn]

/-- When the guard of a setter does not hold, nothing changes. -/
theorem ContextState.call_of_not_differs (c : ContextState) (s : Setter)
    (h : s.differsFromCache c.m_currentState = false) : c.call s = c := by
  cases s
  case SetStencilFunction face _ =>
    cases face <;> simp only [Setter.differsFromCache] at h <;>
      simp [ContextState.call, ContextState.SetStencilFunction, h]
  case SetStencilMask face _ =>
    cases face <;> simp only [Setter.differsFromCache] at h <;>
      simp [ContextState.call, ContextState.SetStencilMask, h]
  case SetStencilOperation face _ _ _ =>
    cases face <;> simp only [Setter.differsFromCache] at h <;>
      simp [ContextState.call, ContextState.SetStencilOperation, h]
  all_goals
    simp only [Setter.differsFromCache] at h
    simp [ContextState.call, ContextState.SetViewport, ContextState.SetDepthRange,
      ContextState.SetPointSize, ContextState.SetPointAntialiasing, ContextState.SetLineWidth,
      ContextState.SetLineAntialiasing, ContextState.SetFaceCulling, ContextState.SetFacesToCull,
      ContextState.SetFrontFace, ContextState.SetPolygonRasterization, ContextState.SetStencilTest,
      ContextState.SetAlphaTest, ContextState.SetAlphaFunction, ContextState.SetDepthTest,
      ContextState.SetDepthFunction, ContextState.SetBlend, ContextState.SetBlendFunction,
      ContextState.SetColorClearValue, ContextState.SetDepthClearValue,
      ContextState.SetStencilClearValue, h]


/-- A float that is not a NaN compares equal to itself. -/
theorem float_eq_self {a : F32} (h : a.isNaN = false) : F32.eq a a = true := by
  simp [F32.eq, h]

/-- Floats that compare equal are identical or both a zero. -/
theorem float_sameUpToZeroSign_of_eq {a b : F32} (h : F32.eq a b = true) :
    F32.sameUpToZeroSign a b := by
  simp only [F32.eq, Bool.and_eq_true, Bool.or_eq_true, decide_eq_true_eq] at h
  exact h.2

/-- The same, component by component, on `glm::vec2`. -/
theorem vec2_sameUpToZeroSign_of_eq {a b : Vec2} (h : Vec2.eq a b = true) :
    Vec2.sameUpToZeroSign a b := by
  simp only [Vec2.eq, Bool.and_eq_true] at h
  exact ⟨float_sameUpToZeroSign_of_eq h.1, float_sameUpToZeroSign_of_eq h.2⟩

/-- The same, component by component, on `glm::vec4`. -/
theorem vec4_sameUpToZeroSign_of_eq {a b : Vec4} (h : Vec4.eq a b = true) :
    Vec4.sameUpToZeroSign a b := by
  simp only [Vec4.eq, Bool.and_eq_true] at h
  exact ⟨float_sameUpToZeroSign_of_eq h.1.1.1, float_sameUpToZeroSign_of_eq h.1.1.2,
    float_sameUpToZeroSign_of_eq h.1.2, float_sameUpToZeroSign_of_eq h.2⟩

/-- Fields that hold the arguments themselves read back as the arguments. -/
theorem Setter.readBack_of_storedIn (c : ContextState) (s : Setter)
    (h : s.storedIn c.m_currentState) : s.readBack c := by
  cases s
  case SetStencilFunction face _ =>
    cases face <;> simp only [Setter.storedIn] at h <;>
      simp [Setter.readBack, ContextState.GetFrontFaceStencilFunction,
        ContextState.GetBackFaceStencilFunction, h]
  case SetStencilMask face _ =>
    cases face <;> simp only [Setter.storedIn] at h <;>
      simp [Setter.readBack, ContextState.GetFrontFaceStencilMask,
        ContextState.GetBackFaceStencilMask, h]
  case SetStencilOperation face _ _ _ =>
    cases face <;> simp only [Setter.storedIn] at h <;>
      simp [Setter.readBack, ContextState.GetFrontFaceStencilOperation,
        ContextState.GetBackFaceStencilOperation, h]
  all_goals
    simp only [Setter.storedIn] at h
    simp [Setter.readBack, ContextState.GetViewportPosition, ContextState.GetViewportDimensions,
      ContextState.GetDepthRange, ContextState.GetPointSize,
      ContextState.IsPointAntialiasingEnabled, ContextState.GetLineWidth,
      ContextState.IsLineAntialiasingEnabled, ContextState.IsFaceCullingEnabled,
      ContextState.IsCullingBackFaces, ContextState.FrontFaceIsCounterClockwise,
      ContextState.GetPolygonRasterization, ContextState.IsStencilTestEnabled,
      ContextState.IsAlphaTestEnabled, ContextState.GetAlphaFunction,
      ContextState.IsDepthTestEnabled, ContextState.GetDepthFunction,
      ContextState.IsBlendingEnabled, ContextState.GetSourceBlendFunction,
      ContextState.GetDestinationBlendFunction, ContextState.GetColorClearCalue,
      ContextState.GetDepthClearValue, ContextState.GetStencilClearValue, h]

/-- An exact read-back is in particular one up to the sign of a zero. -/
theorem Setter.readBackUpToZeroSign_of_readBack (c : ContextState) (s : Setter)
    (h : s.readBack c) : s.readBackUpToZeroSign c := by
  cases s
  case SetViewport =>
    simp only [Setter.readBack] at h
    simp [Setter.readBackUpToZeroSign, Vec2.sameUpToZeroSign, F32.sameUpToZeroSign, h]
  case SetDepthRange =>
    simp only [Setter.readBack] at h
    simp [Setter.readBackUpToZeroSign, F32.sameUpToZeroSign, h]
  case SetPointSize =>
    simp only [Setter.readBack] at h
    simp [Setter.readBackUpToZeroSign, F32.sameUpToZeroSign, h]
  case SetLineWidth =>
    simp only [Setter.readBack] at h
    simp [Setter.readBackUpToZeroSign, F32.sameUpToZeroSign, h]
  case SetAlphaFunction =>
    simp only [Setter.readBack] at h
    simp [Setter.readBackUpToZeroSign, F32.sameUpToZeroSign, h]
  case SetColorClearValue =>
    simp only [Setter.readBack] at h
    simp [Setter.readBackUpToZeroSign, Vec4.sameUpToZeroSign, F32.sameUpToZeroSign, h]
  case SetDepthClearValue =>
    simp only [Setter.readBack] at h
    simp [Setter.readBackUpToZeroSign, F32.sameUpToZeroSign, h]
  all_goals exact h

/-- A cached value that compares equal to the arguments reads back as the
arguments up to the sign of a zero. -/
theorem Setter.readBackUpToZeroSign_of_matchesCache (c : ContextState) (s : Setter)
    (h : s.matchesCache c.m_currentState = true) : s.readBackUpToZeroSign c := by
  cases s
  case SetViewport =>
    simp only [Setter.matchesCache, Bool.and_eq_true] at h
    exact ⟨vec2_sameUpToZeroSign_of_eq h.1, vec2_sameUpToZeroSign_of_eq h.2⟩
  case SetDepthRange =>
    simp only [Setter.matchesCache, Bool.and_eq_true] at h
    exact ⟨float_sameUpToZeroSign_of_eq h.1, float_sameUpToZeroSign_of_eq h.2⟩
  case SetPointSize => exact float_sameUpToZeroSign_of_eq h
  case SetLineWidth => exact float_sameUpToZeroSign_of_eq h
  case SetAlphaFunction =>
    simp only [Setter.matchesCache, Bool.and_eq_true, beq_iff_eq] at h
    exact ⟨h.1, float_sameUpToZeroSign_of_eq h.2⟩
  case SetColorClearValue => exact vec4_sameUpToZeroSign_of_eq h
  case SetDepthClearValue => exact float_sameUpToZeroSign_of_eq h
  case SetStencilFunction face _ =>
    cases face <;> simp only [Setter.matchesCache, Bool.and_eq_true, beq_iff_eq] at h <;>
      simp [Setter.readBackUpToZeroSign, Setter.readBack, ContextState.GetFrontFaceStencilFunction,
        ContextState.GetBackFaceStencilFunction, h]
  case SetStencilMask face _ =>
    cases face <;> simp only [Setter.matchesCache, Bool.and_eq_true, beq_iff_eq] at h <;>
      simp [Setter.readBackUpToZeroSign, Setter.readBack, ContextState.GetFrontFaceStencilMask,
        ContextState.GetBackFaceStencilMask, h]
  case SetStencilOperation face _ _ _ =>
    cases face <;> simp only [Setter.matchesCache, Bool.and_eq_true, beq_iff_eq] at h <;>
      simp [Setter.readBackUpToZeroSign, Setter.readBack,
        ContextState.GetFrontFaceStencilOperation, ContextState.GetBackFaceStencilOperation, h]
  all_goals
    simp only [Setter.matchesCache, Bool.and_eq_true, beq_iff_eq] at h
    simp [Setter.readBackUpToZeroSign, Setter.readBack,
      ContextState.IsPointAntialiasingEnabled,
      ContextState.IsLineAntialiasingEnabled, ContextState.IsFaceCullingEnabled,
      ContextState.IsCullingBackFaces, ContextState.FrontFaceIsCounterClockwise,
      ContextState.GetPolygonRasterization, ContextState.IsStencilTestEnabled,
      ContextState.IsAlphaTestEnabled,
      ContextState.IsDepthTestEnabled, ContextState.GetDepthFunction,
      ContextState.IsBlendingEnabled, ContextState.GetSourceBlendFunction,
      ContextState.GetDestinationBlendFunction,
      ContextState.GetStencilClearValue, h]

/-- Once the fields of the group hold the arguments and no argument is a NaN,
the guard of the setter is false. -/
theorem Setter.not_differs_of_storedIn (cur : ContextStateVariables) (s : Setter)
    (hs : s.storedIn cur) (hn : s.hasNaN = false) : s.differsFromCache cur = false := by
  cases s
  case SetStencilFunction face _ =>
    cases face <;> simp only [Setter.storedIn] at hs <;> simp [Setter.differsFromCache, hs]
  case SetStencilMask face _ =>
    cases face <;> simp only [Setter.storedIn] at hs <;> simp [Setter.differsFromCache, hs]
  case SetStencilOperation face _ _ _ =>
    cases face <;> simp only [Setter.storedIn] at hs <;> simp [Setter.differsFromCache, hs]
  all_goals
    simp only [Setter.storedIn] at hs
    simp only [Setter.hasNaN, Bool.or_eq_false_iff] at hn
    simp [Setter.differsFromCache, hs, Vec2.ne, Vec4.ne, F32.ne, float_eq_self, hn]


/-- The two examples of set-then-get in the specification hold on every cache:
SetDepthFunction(GREATER) reads back GREATER and SetPointSize(-1) reads back
-1. -/
theorem set_then_get_examples (c : ContextState) :
    (c.SetDepthFunction TestFunction.GREATER).GetDepthFunction = TestFunction.GREATER
      ∧ (c.SetPointSize F32.negOne).GetPointSize = F32.negOne := by
  constructor
  · by_cases h : c.m_currentState.depthTestFunction = TestFunction.GREATER <;>
      simp [ContextState.SetDepthFunction, ContextState.GetDepthFunction, ContextState.send, h]
  · cases h : F32.ne c.m_currentState.pointSize F32.negOne
    · have he : F32.eq c.m_currentState.pointSize F32.negOne = true := by
        simpa [F32.ne] using h
      rcases float_sameUpToZeroSign_of_eq he with h1 | h1
      · have hc : c.SetPointSize F32.negOne = c := by simp [ContextState.SetPointSize, h]
        rw [hc]
        exact h1
      · exact absurd h1.2 (by decide)
    · simp [ContextState.SetPointSize, ContextState.GetPointSize, ContextState.send, h]

/-! ## Lemmas on state groups and on `RestoreRecordedState` -/

/-- `RestoreRecordedState` is the assignment of the recorded snapshot followed
by the setter calls listed in `restoreCalls`. -/
theorem ContextState.RestoreRecordedState_eq_callEach (c : ContextState) :
    c.RestoreRecordedState
      = ContextState.callEach { c with m_currentState := c.m_recordedState } restoreCalls := by
  have h0 : ∀ x : ContextState, x.SetDepthRange x.m_currentState.depthRangeMin x.m_currentState.depthRangeMax
      = x.callWith (fun cur => Setter.SetDepthRange cur.depthRangeMin cur.depthRangeMax) := fun _ => rfl
  have h1 : ∀ x : ContextState, x.SetPointSize x.m_currentState.pointSize
      = x.callWith (fun cur => Setter.SetPointSize cur.pointSize) := fun _ => rfl
  have h2 : ∀ x : ContextState, x.SetPointAntialiasing x.m_currentState.pointAntialiasing
      = x.callWith (fun cur => Setter.SetPointAntialiasing cur.pointAntialiasing) := fun _ => rfl
  have h3 : ∀ x : ContextState, x.SetLineWidth x.m_currentState.lineWidth
      = x.callWith (fun cur => Setter.SetLineWidth cur.lineWidth) := fun _ => rfl
  have h4 : ∀ x : ContextState, x.SetLineAntialiasing x.m_currentState.lineAntialiasing
      = x.callWith (fun cur => Setter.SetLineAntialiasing cur.lineAntialiasing) := fun _ => rfl
  have h5 : ∀ x : ContextState, x.SetFaceCulling x.m_currentState.faceCullingEnabled
      = x.callWith (fun cur => Setter.SetFaceCulling cur.faceCullingEnabled) := fun _ => rfl
  have h6 : ∀ x : ContextState, x.SetFacesToCull x.m_currentState.cullBackFace
      = x.callWith (fun cur => Setter.SetFacesToCull cur.cullBackFace) := fun _ => rfl
  have h7 : ∀ x : ContextState, x.SetFrontFace x.m_currentState.frontFaceCounterClockwise
      = x.callWith (fun cur => Setter.SetFrontFace cur.frontFaceCounterClockwise) := fun _ => rfl
  have h8 : ∀ x : ContextState, x.SetPolygonRasterization x.m_currentState.polygonRasterization
      = x.callWith (fun cur => Setter.SetPolygonRasterization cur.polygonRasterization) := fun _ => rfl
  have h9 : ∀ x : ContextState, x.SetStencilTest x.m_currentState.stencilTestEnabled
      = x.callWith (fun cur => Setter.SetStencilTest cur.stencilTestEnabled) := fun _ => rfl
  have h10 : ∀ x : ContextState, x.SetStencilFunction FaceDirection.FRONT_AND_BACK x.m_currentState.frontFaceStencilFunction
      = x.callWith (fun cur => Setter.SetStencilFunction FaceDirection.FRONT_AND_BACK cur.frontFaceStencilFunction) := fun _ => rfl
  have h11 : ∀ x : ContextState, x.SetStencilMask FaceDirection.FRONT_AND_BACK x.m_currentState.frontFaceStencilMask
      = x.callWith (fun cur => Setter.SetStencilMask FaceDirection.FRONT_AND_BACK cur.frontFaceStencilMask) := fun _ => rfl
  have h12 : ∀ x : ContextState, x.SetStencilOperation FaceDirection.FRONT_AND_BACK x.m_currentState.frontFaceStencilOperation0 x.m_currentState.frontFaceStencilOperation1 x.m_currentState.frontFaceStencilOperation2
      = x.callWith (fun cur => Setter.SetStencilOperation FaceDirection.FRONT_AND_BACK cur.frontFaceStencilOperation0 cur.frontFaceStencilOperation1 cur.frontFaceStencilOperation2) := fun _ => rfl
  have h13 : ∀ x : ContextState, x.SetAlphaTest x.m_currentState.alphaTestEnabled
      = x.callWith (fun cur => Setter.SetAlphaTest cur.alphaTestEnabled) := fun _ => rfl
  have h14 : ∀ x : ContextState, x.SetAlphaFunction x.m_currentState.alphaTestFunction x.m_currentState.alphaTestReference
      = x.callWith (fun cur => Setter.SetAlphaFunction cur.alphaTestFunction cur.alphaTestReference) := fun _ => rfl
  have h15 : ∀ x : ContextState, x.SetDepthTest x.m_currentState.depthTestEnabled
      = x.callWith (fun cur => Setter.SetDepthTest cur.depthTestEnabled) := fun _ => rfl
  have h16 : ∀ x : ContextState, x.SetDepthFunction x.m_currentState.depthTestFunction
      = x.callWith (fun cur => Setter.SetDepthFunction cur.depthTestFunction) := fun _ => rfl
  have h17 : ∀ x : ContextState, x.SetBlend x.m_currentState.blendEnabled
      = x.callWith (fun cur => Setter.SetBlend cur.blendEnabled) := fun _ => rfl
  have h18 : ∀ x : ContextState, x.SetBlendFunction x.m_currentState.sourceBlendFunction x.m_currentState.destinationBlendFunction
      = x.callWith (fun cur => Setter.SetBlendFunction cur.sourceBlendFunction cur.destinationBlendFunction) := fun _ => rfl
  have h19 : ∀ x : ContextState, x.SetColorClearValue x.m_currentState.clearColor
      = x.callWith (fun cur => Setter.SetColorClearValue cur.clearColor) := fun _ => rfl
  have h20 : ∀ x : ContextState, x.SetDepthClearValue x.m_currentState.clearDepth
      = x.callWith (fun cur => Setter.SetDepthClearValue cur.clearDepth) := fun _ => rfl
  have h21 : ∀ x : ContextState, x.SetStencilClearValue x.m_currentState.clearStencil
      = x.callWith (fun cur => Setter.SetStencilClearValue cur.clearStencil) := fun _ => rfl
  unfold ContextState.RestoreRecordedState
  simp only [h0, h1, h2, h3, h4, h5, h6, h7, h8, h9, h10, h11, h12, h13, h14, h15, h16, h17, h18, h19, h20, h21, ContextState.callEach, restoreCalls, List.foldl_cons,
    List.foldl_nil]

/-- What a setter call does, in one equation: when its guard holds the driver
receives the matching call and the snapshot is overwritten as that call
says; otherwise nothing changes. -/
theorem ContextState.call_eq (c : ContextState) (s : Setter) :
    c.call s = if s.differsFromCache c.m_currentState = true then
        { m_stateFunctions := c.m_stateFunctions ++ [s.driverCall]
          m_currentState := DriverCall.applyTo c.m_currentState s.driverCall
          m_recordedState := c.m_recordedState }
      else c := by
  cases s
  case SetStencilFunction face _ =>
    cases face <;> (simp only [Setter.differsFromCache]; rfl)
  case SetStencilMask face _ =>
    cases face <;> (simp only [Setter.differsFromCache]; rfl)
  case SetStencilOperation face _ _ _ =>
    cases face <;> (simp only [Setter.differsFromCache]; rfl)
  all_goals (simp only [Setter.differsFromCache]; rfl)

/-- The float comparison `!=` is symmetric. -/
theorem float_ne_comm (a b : F32) : F32.ne a b = F32.ne b a := by
  simp only [F32.ne, F32.eq]
  rw [Bool.and_comm (!a.isNaN) (!b.isNaN), Bool.and_comm a.isZero b.isZero]
  congr 3
  exact decide_eq_decide.mpr eq_comm

/-- The `glm::vec2` comparison `!=` is symmetric. -/
theorem vec2_ne_comm (a b : Vec2) : Vec2.ne a b = Vec2.ne b a := by
  simp only [Vec2.ne, float_ne_comm a.x, float_ne_comm a.y]

/-- The `glm::vec4` comparison `!=` is symmetric. -/
theorem vec4_ne_comm (a b : Vec4) : Vec4.ne a b = Vec4.ne b a := by
  simp only [Vec4.ne, float_ne_comm a.x, float_ne_comm a.y, float_ne_comm a.z, float_ne_comm a.w]

/-- The comparison `!=` of a type with decidable equality is symmetric. -/
theorem bne_swap {α : Type} [DecidableEq α] (a b : α) : (a != b) = (b != a) := by
  by_cases h : a = b
  · subst h; rfl
  · have h2 : ¬ b = a := fun e => h e.symm
    simp [bne, h, h2]

/-- Every setter call is the call of the setter of some state group with some
value. -/
theorem StateGroup.setter_surjective (s : Setter) :
    ∃ g : StateGroup, ∃ v : g.Value, g.setter v = s := by
  cases s
  case SetViewport p d => exact ⟨StateGroup.Viewport, (p, d), rfl⟩
  case SetDepthRange a b => exact ⟨StateGroup.DepthRange, (a, b), rfl⟩
  case SetPointSize a => exact ⟨StateGroup.PointSize, a, rfl⟩
  case SetPointAntialiasing a => exact ⟨StateGroup.PointAntialiasing, a, rfl⟩
  case SetLineWidth a => exact ⟨StateGroup.LineWidth, a, rfl⟩
  case SetLineAntialiasing a => exact ⟨StateGroup.LineAntialiasing, a, rfl⟩
  case SetFaceCulling a => exact ⟨StateGroup.FaceCulling, a, rfl⟩
  case SetFacesToCull a => exact ⟨StateGroup.FacesToCull, a, rfl⟩
  case SetFrontFace a => exact ⟨StateGroup.FrontFace, a, rfl⟩
  case SetPolygonRasterization a => exact ⟨StateGroup.PolygonRasterization, a, rfl⟩
  case SetStencilTest a => exact ⟨StateGroup.StencilTest, a, rfl⟩
  case SetStencilFunction face a => exact ⟨StateGroup.StencilFunction face, a, rfl⟩
  case SetStencilMask face a => exact ⟨StateGroup.StencilMask face, a, rfl⟩
  case SetStencilOperation face a b d =>
    exact ⟨StateGroup.StencilOperation face, (a, b, d), rfl⟩
  case SetAlphaTest a => exact ⟨StateGroup.AlphaTest, a, rfl⟩
  case SetAlphaFunction a b => exact ⟨StateGroup.AlphaFunction, (a, b), rfl⟩
  case SetDepthTest a => exact ⟨StateGroup.DepthTest, a, rfl⟩
  case SetDepthFunction a => exact ⟨StateGroup.DepthFunction, a, rfl⟩
  case SetBlend a => exact ⟨StateGroup.Blend, a, rfl⟩
  case SetBlendFunction a b => exact ⟨StateGroup.BlendFunction, (a, b), rfl⟩
  case SetColorClearValue a => exact ⟨StateGroup.ColorClearValue, a, rfl⟩
  case SetDepthClearValue a => exact ⟨StateGroup.DepthClearValue, a, rfl⟩
  case SetStencilClearValue a => exact ⟨StateGroup.StencilClearValue, a, rfl⟩

/-- For two values of one group: if one snapshot holds the first value and
another snapshot the second, the guard of the setter called with the first
value on the second snapshot is the guard of the setter called with the second
value on the first snapshot. -/
theorem StateGroup.differs_swapped (cur other : ContextStateVariables) (g : StateGroup)
    (v w : g.Value) (hv : (g.setter v).storedIn cur) (hw : (g.setter w).storedIn other) :
    (g.setter v).differsFromCache other = (g.setter w).differsFromCache cur := by
  cases g
  case StencilFunction face =>
    cases face <;> simp only [StateGroup.setter, Setter.storedIn] at hv hw <;>
      simp [StateGroup.setter, Setter.differsFromCache, hv, hw, bne_swap _ (_ : _)]
  case StencilMask face =>
    cases face <;> simp only [StateGroup.setter, Setter.storedIn] at hv hw <;>
      simp [StateGroup.setter, Setter.differsFromCache, hv, hw, bne_swap _ (_ : _)]
  case StencilOperation face =>
    cases face <;> simp only [StateGroup.setter, Setter.storedIn] at hv hw <;>
      simp [StateGroup.setter, Setter.differsFromCache, hv, hw, bne_swap _ (_ : _)]
  all_goals
    simp only [StateGroup.setter, Setter.storedIn] at hv hw
    simp [StateGroup.setter, Setter.differsFromCache, hv, hw, bne_swap _ (_ : _),
      float_ne_comm _ (_ : _), vec2_ne_comm _ (_ : _), vec4_ne_comm _ (_ : _)]

/-- Writing a second value of a group over a first and then the first again
gives back a snapshot that held the first value. -/
theorem StateGroup.applyTo_back (cur : ContextStateVariables) (g : StateGroup)
    (v w : g.Value) (hv : (g.setter v).storedIn cur) :
    DriverCall.applyTo (DriverCall.applyTo cur (g.setter w).driverCall) (g.setter v).driverCall
      = cur := by
  cases cur
  cases g
  case StencilFunction face =>
    cases face <;> simp only [StateGroup.setter, Setter.storedIn] at hv <;>
      simp [StateGroup.setter, Setter.driverCall, DriverCall.applyTo, hv]
  case StencilMask face =>
    cases face <;> simp only [StateGroup.setter, Setter.storedIn] at hv <;>
      simp [StateGroup.setter, Setter.driverCall, DriverCall.applyTo, hv]
  case StencilOperation face =>
    cases face <;> simp only [StateGroup.setter, Setter.storedIn] at hv <;>
      simp [StateGroup.setter, Setter.driverCall, DriverCall.applyTo, hv]
  all_goals
    simp only [StateGroup.setter, Setter.storedIn] at hv
    simp [StateGroup.setter, Setter.driverCall, DriverCall.applyTo, hv]

/-- None of the setter calls of `RestoreRecordedState` is served by the driver
method SetViewport. -/
theorem restoreCalls_not_viewport :
    ∀ f ∈ restoreCalls, ∀ (cur : ContextStateVariables) (position dimensions : Vec2),
      (f cur).driverCall ≠ DriverCall.SetViewport position dimensions := by
  simp [restoreCalls, Setter.driverCall]

/-- A setter call that is not served by the driver method SetViewport sends the
driver no SetViewport and leaves the viewport fields and the recorded snapshot
as they are. -/
theorem ContextState.call_keeps_viewport (c : ContextState) (s : Setter)
    (hs : ∀ position dimensions, s.driverCall ≠ DriverCall.SetViewport position dimensions) :
    ∃ issued : List DriverCall, (c.call s).m_stateFunctions = c.m_stateFunctions ++ issued
      ∧ (∀ position dimensions, DriverCall.SetViewport position dimensions ∉ issued)
      ∧ (c.call s).m_currentState.viewportPosition = c.m_currentState.viewportPosition
      ∧ (c.call s).m_currentState.viewportDimensions = c.m_currentState.viewportDimensions := by
  rw [ContextState.call_eq]
  cases hd : s.differsFromCache c.m_currentState
  · exact ⟨[], by simp, by simp, by simp, by simp⟩
  · refine ⟨[s.driverCall], by simp, ?_, ?_, ?_⟩
    · intro position dimensions hmem
      exact hs position dimensions (List.mem_singleton.mp hmem).symm
    all_goals
      cases s
      case SetViewport position dimensions => exact absurd rfl (hs position dimensions)
      case SetStencilFunction face _ => cases face <;> rfl
      case SetStencilMask face _ => cases face <;> rfl
      case SetStencilOperation face _ _ _ => cases face <;> rfl
      all_goals rfl

/-- A run of setter calls none of which is served by SetViewport sends the
driver no SetViewport and leaves the viewport fields as they are. -/
theorem ContextState.callEach_keeps_viewport (fs : List (ContextStateVariables → Setter))
    (hfs : ∀ f ∈ fs, ∀ (cur : ContextStateVariables) (position dimensions : Vec2),
      (f cur).driverCall ≠ DriverCall.SetViewport position dimensions)
    (c : ContextState) :
    ∃ issued : List DriverCall, (c.callEach fs).m_stateFunctions = c.m_stateFunctions ++ issued
      ∧ (∀ position dimensions, DriverCall.SetViewport position dimensions ∉ issued)
      ∧ (c.callEach fs).m_currentState.viewportPosition = c.m_currentState.viewportPosition
      ∧ (c.callEach fs).m_currentState.viewportDimensions
          = c.m_currentState.viewportDimensions := by
  induction fs generalizing c with
  | nil => exact ⟨[], by simp [ContextState.callEach], by simp, rfl, rfl⟩
  | cons f fs ih =>
    have hf := hfs f (List.mem_cons_self f fs) c.m_currentState
    obtain ⟨l1, h1, n1, p1, d1⟩ := ContextState.call_keeps_viewport c (f c.m_currentState) hf
    obtain ⟨l2, h2, n2, p2, d2⟩ :=
      ih (fun g hg => hfs g (List.mem_cons_of_mem f hg)) (c.callWith f)
    refine ⟨l1 ++ l2, ?_, ?_, ?_, ?_⟩
    · show ((c.callWith f).callEach fs).m_stateFunctions = _
      rw [h2]
      show (c.call (f c.m_currentState)).m_stateFunctions ++ l2 = _
      rw [h1, List.append_assoc]
    · intro position dimensions hmem
      rcases List.mem_append.mp hmem with h | h
      · exact n1 position dimensions h
      · exact n2 position dimensions h
    · show ((c.callWith f).callEach fs).m_currentState.viewportPosition = _
      rw [p2]; exact p1
    · show ((c.callWith f).callEach fs).m_currentState.viewportDimensions = _
      rw [d2]; exact d1

/-- The check `GetStencilOperation` really makes: the first two components
face against face, and the front-face pass operation against the back-face
depth-fail operation. -/
theorem ContextState.GetStencilOperation_eq (c : ContextState) :
    c.GetStencilOperation
      = (if c.m_currentState.frontFaceStencilOperation0 = c.m_currentState.backFaceStencilOperation0
            ∧ c.m_currentState.frontFaceStencilOperation1
              = c.m_currentState.backFaceStencilOperation1
            ∧ c.m_currentState.frontFaceStencilOperation2
              = c.m_currentState.backFaceStencilOperation1
          then some (c.m_currentState.frontFaceStencilOperation0,
            c.m_currentState.frontFaceStencilOperation1,
            c.m_currentState.frontFaceStencilOperation2)
          else none) := by
  simp only [ContextState.GetStencilOperation, GFW_ASSERT]
  split <;> rename_i h <;> simp only [Bool.and_eq_true, beq_iff_eq, and_assoc] at h <;>
    simp [h]

/-! ## Lemmas on runs of setter calls and on the outcome of `RestoreRecordedState` -/

/-- A setter call leaves the recorded snapshot as it is. -/
theorem ContextState.call_keeps_recorded (c : ContextState) (s : Setter) :
    (c.call s).m_recordedState = c.m_recordedState := by
  rw [ContextState.call_eq]
  split <;> rfl

/-- A run of setter calls leaves the recorded snapshot as it is. -/
theorem ContextState.callAll_keeps_recorded (setters : List Setter) (c : ContextState) :
    (c.callAll setters).m_recordedState = c.m_recordedState := by
  induction setters generalizing c with
  | nil => rfl
  | cons s rest ih =>
    show ((c.call s).callAll rest).m_recordedState = _
    rw [ih, ContextState.call_keeps_recorded]

/-- A run of setter calls with arguments read from the snapshot leaves the
recorded snapshot as it is. -/
theorem ContextState.callEach_keeps_recorded (fs : List (ContextStateVariables → Setter))
    (c : ContextState) : (c.callEach fs).m_recordedState = c.m_recordedState := by
  induction fs generalizing c with
  | nil => rfl
  | cons f rest ih =>
    show ((c.callWith f).callEach rest).m_recordedState = _
    rw [ih]
    exact ContextState.call_keeps_recorded c _

/-- A setter call keeps the modelled driver state equal to the current
snapshot. -/
theorem ContextState.call_keeps_agreement (d : ContextStateVariables) (c : ContextState)
    (s : Setter) (h : driverState d c.m_stateFunctions = c.m_currentState) :
    driverState d (c.call s).m_stateFunctions = (c.call s).m_currentState := by
  rw [ContextState.call_eq]
  split
  · simp only [driverState, List.foldl_append, List.foldl_cons, List.foldl_nil]
    rw [← h]
    rfl
  · exact h

/-- A run of setter calls keeps the modelled driver state equal to the current
snapshot. -/
theorem ContextState.callAll_keeps_agreement (d : ContextStateVariables) (setters : List Setter)
    (c : ContextState) (h : driverState d c.m_stateFunctions = c.m_currentState) :
    driverState d (c.callAll setters).m_stateFunctions = (c.callAll setters).m_currentState := by
  induction setters generalizing c with
  | nil => exact h
  | cons s rest ih => exact ih (c.call s) (ContextState.call_keeps_agreement d c s h)

/-- Running two lists of calls one after the other is running their
concatenation. -/
theorem ContextState.callEach_append (c : ContextState)
    (fs gs : List (ContextStateVariables → Setter)) :
    c.callEach (fs ++ gs) = (c.callEach fs).callEach gs := by
  simp only [ContextState.callEach, List.foldl_append]

/-- Calls that pass a setter the values the snapshot already holds change
neither snapshot; they reach the driver only where a float is a NaN. -/
theorem ContextState.callEach_of_cached_values (fs : List (ContextStateVariables → Setter))
    (hq : ∀ f ∈ fs, ∀ cur : ContextStateVariables,
      DriverCall.applyTo cur (f cur).driverCall = cur
        ∧ (cur.hasNaN = false → (f cur).differsFromCache cur = false))
    (c : ContextState) :
    ∃ issued : List DriverCall,
      c.callEach fs
          = { m_stateFunctions := c.m_stateFunctions ++ issued
              m_currentState := c.m_currentState
              m_recordedState := c.m_recordedState }
        ∧ (c.m_currentState.hasNaN = false → issued = []) := by
  induction fs generalizing c with
  | nil => exact ⟨[], by simp [ContextState.callEach], fun _ => rfl⟩
  | cons f rest ih =>
    have hf := hq f (List.mem_cons_self f rest) c.m_currentState
    have hstep : c.callWith f
        = { m_stateFunctions := c.m_stateFunctions
              ++ (if (f c.m_currentState).differsFromCache c.m_currentState = true then
                    [(f c.m_currentState).driverCall] else [])
            m_currentState := c.m_currentState
            m_recordedState := c.m_recordedState } := by
      show c.call (f c.m_currentState) = _
      rw [ContextState.call_eq]
      split
      · rw [hf.1]
      · simp
    obtain ⟨issued, h1, h2⟩ := ih (fun g hg => hq g (List.mem_cons_of_mem f hg)) (c.callWith f)
    refine ⟨(if (f c.m_currentState).differsFromCache c.m_currentState = true then
        [(f c.m_currentState).driverCall] else []) ++ issued, ?_, ?_⟩
    · show (c.callWith f).callEach rest = _
      rw [h1, hstep]
      simp
    · intro hn
      have hi := h2 (by rw [hstep]; exact hn)
      rw [hi, hf.2 hn]
      simp

/-- The calls of `RestoreRecordedState` other than the three stencil calls pass
a setter values read from the snapshot itself: writing them changes nothing,
and their guard is false unless a float among them is a NaN. -/
theorem restoreCalls_outside_stencil :
    ∀ f ∈ restoreCalls.take 10 ++ restoreCalls.drop 13, ∀ cur : ContextStateVariables,
      DriverCall.applyTo cur (f cur).driverCall = cur
        ∧ (cur.hasNaN = false → (f cur).differsFromCache cur = false) := by
  intro f hf cur
  simp only [restoreCalls, List.take_succ_cons, List.take_zero, List.drop_succ_cons, List.drop_zero,
    List.cons_append, List.nil_append, List.mem_cons, List.mem_singleton, List.not_mem_nil,
    or_false] at hf
  refine ⟨?_, ?_⟩
  · rcases hf with h | h | h | h | h | h | h | h | h | h | h | h | h | h | h | h | h | h | h <;>
      subst h <;> rfl
  · intro hn
    simp only [ContextStateVariables.hasNaN, Bool.or_eq_false_iff] at hn
    rcases hf with h | h | h | h | h | h | h | h | h | h | h | h | h | h | h | h | h | h | h <;>
      subst h <;>
      simp [Setter.differsFromCache, Vec4.ne, F32.ne, float_eq_self, hn]

/-- The stencil function call of `RestoreRecordedState`. -/
theorem ContextState.callWith_restore_stencil_function (c : ContextState) :
    c.callWith (fun cur =>
        Setter.SetStencilFunction FaceDirection.FRONT_AND_BACK cur.frontFaceStencilFunction)
      = { m_stateFunctions := c.m_stateFunctions ++
            (if c.m_currentState.frontFaceStencilFunction
                ≠ c.m_currentState.backFaceStencilFunction then
              [DriverCall.SetStencilFunction FaceDirection.FRONT_AND_BACK
                c.m_currentState.frontFaceStencilFunction]
            else [])
          m_currentState := { c.m_currentState with
            backFaceStencilFunction := c.m_currentState.frontFaceStencilFunction }
          m_recordedState := c.m_recordedState } := by
  show c.call _ = _
  rw [ContextState.call_eq]
  by_cases h : c.m_currentState.frontFaceStencilFunction
      = c.m_currentState.backFaceStencilFunction
  · have hb : c.m_currentState.backFaceStencilFunction
        = c.m_currentState.frontFaceStencilFunction := h.symm
    obtain ⟨log, cur, rec⟩ := c
    cases cur
    simp_all [Setter.differsFromCache]
  · have hb : ¬ c.m_currentState.backFaceStencilFunction
        = c.m_currentState.frontFaceStencilFunction := fun e => h e.symm
    simp [Setter.differsFromCache, Setter.driverCall, DriverCall.applyTo, h, hb]

/-- The stencil mask call of `RestoreRecordedState`. -/
theorem ContextState.callWith_restore_stencil_mask (c : ContextState) :
    c.callWith (fun cur =>
        Setter.SetStencilMask FaceDirection.FRONT_AND_BACK cur.frontFaceStencilMask)
      = { m_stateFunctions := c.m_stateFunctions ++
            (if c.m_currentState.frontFaceStencilMask ≠ c.m_currentState.backFaceStencilMask then
              [DriverCall.SetStencilMask FaceDirection.FRONT_AND_BACK
                c.m_currentState.frontFaceStencilMask]
            else [])
          m_currentState := { c.m_currentState with
            backFaceStencilMask := c.m_currentState.frontFaceStencilMask }
          m_recordedState := c.m_recordedState } := by
  show c.call _ = _
  rw [ContextState.call_eq]
  by_cases h : c.m_currentState.frontFaceStencilMask = c.m_currentState.backFaceStencilMask
  · have hb : c.m_currentState.backFaceStencilMask = c.m_currentState.frontFaceStencilMask :=
      h.symm
    obtain ⟨log, cur, rec⟩ := c
    cases cur
    simp_all [Setter.differsFromCache]
  · have hb : ¬ c.m_currentState.backFaceStencilMask = c.m_currentState.frontFaceStencilMask :=
      fun e => h e.symm
    simp [Setter.differsFromCache, Setter.driverCall, DriverCall.applyTo, h, hb]

/-- The stencil operation call of `RestoreRecordedState`. -/
theorem ContextState.callWith_restore_stencil_operation (c : ContextState) :
    c.callWith (fun cur =>
        Setter.SetStencilOperation FaceDirection.FRONT_AND_BACK cur.frontFaceStencilOperation0
          cur.frontFaceStencilOperation1 cur.frontFaceStencilOperation2)
      = { m_stateFunctions := c.m_stateFunctions ++
            (if c.m_currentState.frontFaceStencilOperation0
                  ≠ c.m_currentState.backFaceStencilOperation0
                ∨ c.m_currentState.frontFaceStencilOperation1
                  ≠ c.m_currentState.backFaceStencilOperation1
                ∨ c.m_currentState.frontFaceStencilOperation2
                  ≠ c.m_currentState.backFaceStencilOperation2 then
              [DriverCall.SetStencilOperation FaceDirection.FRONT_AND_BACK
                c.m_currentState.frontFaceStencilOperation0
                c.m_currentState.frontFaceStencilOperation1
                c.m_currentState.frontFaceStencilOperation2]
            else [])
          m_currentState := { c.m_currentState with
            backFaceStencilOperation0 := c.m_currentState.frontFaceStencilOperation0
            backFaceStencilOperation1 := c.m_currentState.frontFaceStencilOperation1
            backFaceStencilOperation2 := c.m_currentState.frontFaceStencilOperation2 }
          m_recordedState := c.m_recordedState } := by
  show c.call _ = _
  rw [ContextState.call_eq]
  by_cases h : c.m_currentState.frontFaceStencilOperation0
        ≠ c.m_currentState.backFaceStencilOperation0
      ∨ c.m_currentState.frontFaceStencilOperation1 ≠ c.m_currentState.backFaceStencilOperation1
      ∨ c.m_currentState.frontFaceStencilOperation2 ≠ c.m_currentState.backFaceStencilOperation2
  · have hd : (Setter.SetStencilOperation FaceDirection.FRONT_AND_BACK
          c.m_currentState.frontFaceStencilOperation0
          c.m_currentState.frontFaceStencilOperation1
          c.m_currentState.frontFaceStencilOperation2).differsFromCache c.m_currentState
        = true := by
      simp only [Setter.differsFromCache, Bool.or_eq_true, bne_iff_ne, ne_eq]
      rcases h with h | h | h
      · exact Or.inl (Or.inl (Or.inr (fun e => h e.symm)))
      · exact Or.inl (Or.inr (fun e => h e.symm))
      · exact Or.inr (fun e => h e.symm)
    rw [if_pos hd, if_pos h]
    rfl
  · simp only [ne_eq, not_or, Decidable.not_not] at h
    obtain ⟨log, cur, rec⟩ := c
    cases cur
    simp_all [Setter.differsFromCache]

/-- The three stencil calls of `RestoreRecordedState`, run one after the
other: the driver receives the stencil calls for the faces that differ and the
back-face stencil values become the front-face ones. -/
theorem ContextState.callEach_restore_stencil (c : ContextState) :
    c.callEach
        [ fun cur => Setter.SetStencilFunction FaceDirection.FRONT_AND_BACK
            cur.frontFaceStencilFunction,
          fun cur => Setter.SetStencilMask FaceDirection.FRONT_AND_BACK cur.frontFaceStencilMask,
          fun cur => Setter.SetStencilOperation FaceDirection.FRONT_AND_BACK
            cur.frontFaceStencilOperation0 cur.frontFaceStencilOperation1
            cur.frontFaceStencilOperation2 ]
      = { m_stateFunctions := c.m_stateFunctions ++ c.m_currentState.restoreStencilCalls
          m_currentState := c.m_currentState.withBackFromFront
          m_recordedState := c.m_recordedState } := by
  simp only [ContextState.callEach, List.foldl_cons, List.foldl_nil]
  rw [ContextState.callWith_restore_stencil_function, ContextState.callWith_restore_stencil_mask,
    ContextState.callWith_restore_stencil_operation]
  simp only [ContextStateVariables.restoreStencilCalls, ContextStateVariables.withBackFromFront,
    List.append_assoc]

/-- What `RestoreRecordedState` does, in one equation: the current snapshot
becomes the recorded one with the back-face stencil values replaced by the
front-face ones, and the driver receives the stencil calls for the faces that
differ, preceded and followed by calls that are issued only for NaN floats. -/
theorem ContextState.RestoreRecordedState_eq (c : ContextState) :
    ∃ before after : List DriverCall,
      c.RestoreRecordedState
          = { m_stateFunctions := c.m_stateFunctions
                ++ (before ++ (c.m_recordedState.restoreStencilCalls ++ after))
              m_currentState := c.m_recordedState.withBackFromFront
              m_recordedState := c.m_recordedState }
        ∧ (c.m_recordedState.hasNaN = false → before = [] ∧ after = []) := by
  have hsplit : restoreCalls = restoreCalls.take 10 ++
      ([ fun cur => Setter.SetStencilFunction FaceDirection.FRONT_AND_BACK
            cur.frontFaceStencilFunction,
          fun cur => Setter.SetStencilMask FaceDirection.FRONT_AND_BACK cur.frontFaceStencilMask,
          fun cur => Setter.SetStencilOperation FaceDirection.FRONT_AND_BACK
            cur.frontFaceStencilOperation0 cur.frontFaceStencilOperation1
            cur.frontFaceStencilOperation2 ] ++ restoreCalls.drop 13) := rfl
  have hA : ∀ f ∈ restoreCalls.take 10, ∀ cur : ContextStateVariables,
      DriverCall.applyTo cur (f cur).driverCall = cur
        ∧ (cur.hasNaN = false → (f cur).differsFromCache cur = false) :=
    fun f hf => restoreCalls_outside_stencil f (List.mem_append_left _ hf)
  have hB : ∀ f ∈ restoreCalls.drop 13, ∀ cur : ContextStateVariables,
      DriverCall.applyTo cur (f cur).driverCall = cur
        ∧ (cur.hasNaN = false → (f cur).differsFromCache cur = false) :=
    fun f hf => restoreCalls_outside_stencil f (List.mem_append_right _ hf)
  obtain ⟨before, hb, hb0⟩ := ContextState.callEach_of_cached_values _ hA
    { c with m_currentState := c.m_recordedState }
  obtain ⟨after, ha, ha0⟩ := ContextState.callEach_of_cached_values _ hB
    { m_stateFunctions := c.m_stateFunctions ++ before
        ++ c.m_recordedState.restoreStencilCalls
      m_currentState := c.m_recordedState.withBackFromFront
      m_recordedState := c.m_recordedState }
  refine ⟨before, after, ?_, fun hn => ⟨hb0 hn, ha0 hn⟩⟩
  rw [ContextState.RestoreRecordedState_eq_callEach]
  conv_lhs => rw [hsplit]
  rw [ContextState.callEach_append, ContextState.callEach_append, hb,
    ContextState.callEach_restore_stencil, ha]
  simp only [List.append_assoc]

set_option maxHeartbeats 4000000 in
/-- Setters of different state groups do not see each other: writing the
arguments of one leaves the guard of the other as it was, and the two writes
can be made in either order. -/
theorem Setter.independent_of_other_group (s1 s2 : Setter) (h : s1.group ≠ s2.group) :
    (∀ cur : ContextStateVariables,
        s2.differsFromCache (DriverCall.applyTo cur s1.driverCall) = s2.differsFromCache cur)
      ∧ (∀ cur : ContextStateVariables,
        DriverCall.applyTo (DriverCall.applyTo cur s1.driverCall) s2.driverCall
          = DriverCall.applyTo (DriverCall.applyTo cur s2.driverCall) s1.driverCall) := by
  cases s1 <;> (try cases ‹FaceDirection›) <;> cases s2 <;> (try cases ‹FaceDirection›) <;> first
    | exact absurd rfl h
    | (constructor <;> intro cur <;>
        simp only [Setter.differsFromCache, DriverCall.applyTo, Setter.driverCall])

/-! ## Claims -/

/-- Claim C1: a setter whose every argument equals the value cached for its
state group issues no driver call and leaves the current snapshot unchanged
(nothing of the cache changes at all). -/
theorem setter_with_cached_arguments_is_noop (c : ContextState) (s : Setter)
    (h : s.matchesCache c.m_currentState = true) :
    (c.call s).m_stateFunctions = c.m_stateFunctions
      ∧ (c.call s).m_currentState = c.m_currentState
      ∧ c.call s = c := by
  have hd : s.differsFromCache c.m_currentState = false := by
    rw [Setter.differsFromCache_eq_not_matchesCache, h]; rfl
  have hc := ContextState.call_of_not_differs c s hd
  rw [hc]
  exact ⟨rfl, rfl, rfl⟩

/-- Witness of C1: on a fresh cache SetDepthFunction(LESS) sends nothing to
the driver. -/
theorem setter_with_cached_arguments_is_noop_witness :
    (Setter.SetDepthFunction TestFunction.LESS).matchesCache freshCache.m_currentState = true
      ∧ (freshCache.call (Setter.SetDepthFunction TestFunction.LESS)).m_stateFunctions
          = freshCache.m_stateFunctions :=
  ⟨by decide,
    (setter_with_cached_arguments_is_noop freshCache (Setter.SetDepthFunction TestFunction.LESS)
      (by decide)).1⟩

/-- Claim C2: a setter of which at least one argument differs from the value
cached for its state group issues exactly one driver call, to the matching
driver method and carrying all the new values, and afterwards every field of
the group in the current snapshot holds the new value. -/
theorem setter_with_new_arguments_calls_driver_once (c : ContextState) (s : Setter)
    (h : s.differsFromCache c.m_currentState = true) :
    (c.call s).m_stateFunctions = c.m_stateFunctions ++ [s.driverCall]
      ∧ s.storedIn (c.call s).m_currentState :=
  ⟨(ContextState.call_of_differs c s h).1, (ContextState.call_of_differs c s h).2.1⟩

/-- Witness of C2: SetAlphaFunction with the cached function ALWAYS and the
reference 1 instead of the cached 0 issues one SetAlphaFunction(ALWAYS, 1) and
stores both values. -/
theorem setter_with_new_arguments_calls_driver_once_witness :
    freshCache.m_currentState.alphaTestFunction = TestFunction.ALWAYS
      ∧ (Setter.SetAlphaFunction TestFunction.ALWAYS F32.one).differsFromCache
          freshCache.m_currentState = true
      ∧ (freshCache.call (Setter.SetAlphaFunction TestFunction.ALWAYS F32.one)).m_stateFunctions
          = freshCache.m_stateFunctions ++ [DriverCall.SetAlphaFunction TestFunction.ALWAYS F32.one]
      ∧ (freshCache.call (Setter.SetAlphaFunction TestFunction.ALWAYS F32.one)).m_currentState.alphaTestFunction
          = TestFunction.ALWAYS
      ∧ (freshCache.call (Setter.SetAlphaFunction TestFunction.ALWAYS F32.one)).m_currentState.alphaTestReference
          = F32.one :=
  ⟨by decide, by decide,
    (setter_with_new_arguments_calls_driver_once freshCache
      (Setter.SetAlphaFunction TestFunction.ALWAYS F32.one) (by decide)).1,
    (setter_with_new_arguments_calls_driver_once freshCache
      (Setter.SetAlphaFunction TestFunction.ALWAYS F32.one) (by decide)).2⟩


set_option maxRecDepth 100000 in
/-- Claim C3, evaluated where it fails: on a fresh cache the back-face stencil
mask reads 0 when RecordState() is called, and RestoreRecordedState() (here
after no setter call at all) leaves it reading 1, the front-face mask. After
SetStencilFunction(BACK, NEVER) the same happens to the back-face function:
recorded as NEVER, it reads ALWAYS after the restore. -/
theorem restore_does_not_return_back_face_stencil_values :
    freshCache.RecordState.GetBackFaceStencilMask = 0
      ∧ ((freshCache.RecordState.callAll []).RestoreRecordedState).GetBackFaceStencilMask = 1
      ∧ ((freshCache.SetStencilFunction FaceDirection.BACK TestFunction.NEVER).RecordState
          ).GetBackFaceStencilFunction = TestFunction.NEVER
      ∧ ((((freshCache.SetStencilFunction FaceDirection.BACK TestFunction.NEVER).RecordState
          ).callAll [Setter.SetDepthTest true]).RestoreRecordedState).GetBackFaceStencilFunction
          = TestFunction.ALWAYS := by
  decide

set_option maxRecDepth 100000 in
/-- Claim C4, evaluated where it fails: on a fresh cache RecordState() followed
by RestoreRecordedState() makes the driver receive a single call,
SetStencilMask(FRONT_AND_BACK, 1), instead of twenty-two; and once front and
back stencil values agree, a restore that undoes SetDepthTest(true) in the
snapshot sends the driver nothing at all. -/
theorem restore_does_not_reissue_driver_calls :
    (freshCache.RecordState.RestoreRecordedState).m_stateFunctions
        = freshCache.m_stateFunctions
          ++ [DriverCall.SetStencilMask FaceDirection.FRONT_AND_BACK 1]
      ∧ ((((freshCache.SetStencilMask FaceDirection.BACK 1).RecordState).SetDepthTest true
          ).RestoreRecordedState).m_stateFunctions
        = (((freshCache.SetStencilMask FaceDirection.BACK 1).RecordState).SetDepthTest true
          ).m_stateFunctions
      ∧ ((((freshCache.SetStencilMask FaceDirection.BACK 1).RecordState).SetDepthTest true
          ).RestoreRecordedState).IsDepthTestEnabled = false := by
  decide

set_option maxRecDepth 100000 in
/-- Claim C5, evaluated where it fails: take a driver whose viewport was zero
before the cache was constructed on it. After SetStencilMask(BACK, 1) on the
fresh cache the modelled driver state equals the current snapshot; after
RecordState(), SetDepthTest(true), RestoreRecordedState() the snapshot says
the depth test is disabled while the driver still has it enabled. -/
theorem restore_breaks_agreement_with_driver :
    driverState (ContextStateVariables.initial Vec2.zero Vec2.zero Vec4.zero)
        (freshCache.SetStencilMask FaceDirection.BACK 1).m_stateFunctions
      = (freshCache.SetStencilMask FaceDirection.BACK 1).m_currentState
    ∧ (driverState (ContextStateVariables.initial Vec2.zero Vec2.zero Vec4.zero)
        ((freshCache.SetStencilMask FaceDirection.BACK 1).run
          [Operation.RecordState, Operation.set (Setter.SetDepthTest true),
            Operation.RestoreRecordedState]).m_stateFunctions).depthTestEnabled = true
    ∧ ((freshCache.SetStencilMask FaceDirection.BACK 1).run
          [Operation.RecordState, Operation.set (Setter.SetDepthTest true),
            Operation.RestoreRecordedState]).m_currentState.depthTestEnabled = false := by
  decide

/-- Claim C6, evaluated where it fails: whatever the driver held before, right
after construction the driver holds back-face stencil mask 1 (written by the
FRONT_AND_BACK call that carries the front-face default) while the snapshot
holds 0; and the constructor sends no viewport, so the viewport of the driver
is the one it had before. -/
theorem construction_leaves_cache_and_driver_apart (d : ContextStateVariables)
    (calls : List DriverCall) (viewportPosition viewportDimensions : Vec2) (clearColor : Vec4) :
    ∃ c, ContextState.new (some calls) viewportPosition viewportDimensions clearColor = some c
      ∧ (driverState d c.m_stateFunctions).backFaceStencilMask = 1
      ∧ c.m_currentState.backFaceStencilMask = 0
      ∧ (driverState d c.m_stateFunctions).viewportPosition
          = (driverState d calls).viewportPosition
      ∧ (driverState d c.m_stateFunctions).viewportDimensions
          = (driverState d calls).viewportDimensions
      ∧ c.m_currentState.viewportPosition = viewportPosition
      ∧ c.m_currentState.viewportDimensions = viewportDimensions := by
  refine ⟨_, rfl, ?_, rfl, ?_, ?_, rfl, rfl⟩ <;>
    simp [ContextState.InitializeState, ContextState.send, driverState, List.foldl_append,
      DriverCall.applyTo, ContextStateVariables.initial]

/-- Claim C7: construction on a non-null driver succeeds and makes the driver
receive, after whatever it had received before, exactly these twenty-two calls:
one of each driver method other than SetViewport, each with the default of the
cached field(s), the three stencil calls with the selector FRONT_AND_BACK and
the front-face default. -/
theorem construction_pushes_defaults (calls : List DriverCall)
    (viewportPosition viewportDimensions : Vec2) (clearColor : Vec4) :
    ∃ c, ContextState.new (some calls) viewportPosition viewportDimensions clearColor = some c
      ∧ c.m_stateFunctions = calls ++
        [ DriverCall.SetDepthRange F32.zero F32.one,
          DriverCall.SetPointSize F32.one,
          DriverCall.SetPointAntialiasing false,
          DriverCall.SetLineWidth F32.one,
          DriverCall.SetLineAntialiasing false,
          DriverCall.SetCullFace false,
          DriverCall.SetFacesToCull true,
          DriverCall.SetFrontFace true,
          DriverCall.SetPolygonRasterization RasterizationMode.FILL,
          DriverCall.SetStencilTest false,
          DriverCall.SetStencilFunction FaceDirection.FRONT_AND_BACK TestFunction.ALWAYS,
          DriverCall.SetStencilMask FaceDirection.FRONT_AND_BACK 1,
          DriverCall.SetStencilOperation FaceDirection.FRONT_AND_BACK TestOperation.KEEP
            TestOperation.KEEP TestOperation.KEEP,
          DriverCall.SetAlphaTest false,
          DriverCall.SetAlphaFunction TestFunction.ALWAYS F32.zero,
          DriverCall.SetDepthTest false,
          DriverCall.SetDepthFunction TestFunction.LESS,
          DriverCall.SetBlend false,
          DriverCall.SetBlendFunction BlendFunction.ONE BlendFunction.ZERO,
          DriverCall.SetColorClearValue c.m_currentState.clearColor,
          DriverCall.SetDepthClearValue F32.one,
          DriverCall.SetStencilClearValue 0 ]
      ∧ c.m_currentState
          = ContextStateVariables.initial viewportPosition viewportDimensions clearColor := by
  refine ⟨_, rfl, ?_, rfl⟩
  simp [ContextState.InitializeState, ContextState.send, ContextStateVariables.initial]

/-- Claim C8: right after construction the getters return the documented
defaults. -/
theorem getters_return_defaults_after_construction (calls : List DriverCall)
    (viewportPosition viewportDimensions : Vec2) (clearColor : Vec4) :
    ∃ c, ContextState.new (some calls) viewportPosition viewportDimensions clearColor = some c
      ∧ c.GetDepthRange = (F32.zero, F32.one)
      ∧ c.GetPointSize = F32.one
      ∧ c.GetLineWidth = F32.one
      ∧ c.IsPointAntialiasingEnabled = false
      ∧ c.IsLineAntialiasingEnabled = false
      ∧ c.IsFaceCullingEnabled = false
      ∧ c.IsCullingBackFaces = true
      ∧ c.FrontFaceIsCounterClockwise = true
      ∧ c.GetPolygonRasterization = RasterizationMode.FILL
      ∧ c.IsStencilTestEnabled = false
      ∧ c.IsAlphaTestEnabled = false
      ∧ c.IsDepthTestEnabled = false
      ∧ c.GetFrontFaceStencilFunction = TestFunction.ALWAYS
      ∧ c.GetBackFaceStencilFunction = TestFunction.ALWAYS
      ∧ c.GetAlphaFunction.1 = TestFunction.ALWAYS
      ∧ c.GetDepthFunction = TestFunction.LESS
      ∧ c.IsBlendingEnabled = false
      ∧ c.GetSourceBlendFunction = BlendFunction.ONE
      ∧ c.GetDestinationBlendFunction = BlendFunction.ZERO
      ∧ c.GetDepthClearValue = F32.one
      ∧ c.GetStencilClearValue = 0 :=
  ⟨_, rfl, rfl, rfl, rfl, rfl, rfl, rfl, rfl, rfl, rfl, rfl, rfl, rfl, rfl, rfl, rfl, rfl, rfl,
    rfl, rfl, rfl, rfl⟩

/-- Claim C9 as stated fails: the fresh cache holds depth range (0, 1);
SetDepthRange(-0, 1) compares equal to it, so nothing is written, and
GetDepthRange() returns (0, 1), whose first component is not the -0 passed.
Reading "the value just passed" as "a value that compares `==` to it" does not
save the claim: after SetPointSize(NaN) the getter returns that NaN, which
does not compare equal to the argument. -/
theorem set_then_get_exact_counterexample :
    (freshCache.call (Setter.SetDepthRange F32.negZero F32.one)).GetDepthRange
        = (F32.zero, F32.one)
      ∧ (F32.zero, F32.one) ≠ (F32.negZero, F32.one)
      ∧ ¬ (Setter.SetDepthRange F32.negZero F32.one).readBack
          (freshCache.call (Setter.SetDepthRange F32.negZero F32.one))
      ∧ F32.eq (freshCache.call (Setter.SetPointSize F32.qNaN)).GetPointSize F32.qNaN
          = false := by
  unfold Setter.readBack
  decide

/-- Claim C9, amended: after any setter call on any cache the corresponding
getter returns the value(s) just passed, exactly for every value that is not a
float and up to the sign of a zero for a float. -/
theorem set_then_get_up_to_zero_sign (c : ContextState) (s : Setter) :
    s.readBackUpToZeroSign (c.call s) := by
  cases h : s.differsFromCache c.m_currentState
  · rw [ContextState.call_of_not_differs c s h]
    apply Setter.readBackUpToZeroSign_of_matchesCache
    rw [Setter.differsFromCache_eq_not_matchesCache] at h
    simpa using h
  · exact Setter.readBackUpToZeroSign_of_readBack _ _
      (Setter.readBack_of_storedIn _ _ (ContextState.call_of_differs c s h).2.1)

/-- Claim C10 as stated fails: SetPointSize(NaN) twice on a fresh cache issues
two driver calls, the second call one of them. -/
theorem setter_twice_counterexample :
    ((freshCache.call (Setter.SetPointSize F32.qNaN)).call
        (Setter.SetPointSize F32.qNaN)).m_stateFunctions
      = freshCache.m_stateFunctions
        ++ [DriverCall.SetPointSize F32.qNaN, DriverCall.SetPointSize F32.qNaN]
    ∧ ((freshCache.call (Setter.SetPointSize F32.qNaN)).call
        (Setter.SetPointSize F32.qNaN)).m_stateFunctions
      ≠ (freshCache.call (Setter.SetPointSize F32.qNaN)).m_stateFunctions := by
  decide

/-- Claim C10, amended: when no float argument is a NaN, calling a setter twice
in a row with the same argument issues at most one driver call in total; the
second call issues none and leaves the cache as the first call left it. -/
theorem setter_twice_without_nan (c : ContextState) (s : Setter) (h : s.hasNaN = false) :
    (c.call s).call s = c.call s
      ∧ ∃ issued : List DriverCall, issued.length ≤ 1
          ∧ ((c.call s).call s).m_stateFunctions = c.m_stateFunctions ++ issued := by
  cases hd : s.differsFromCache c.m_currentState
  · rw [ContextState.call_of_not_differs c s hd, ContextState.call_of_not_differs c s hd]
    exact ⟨rfl, [], by simp, by simp⟩
  · have h1 := ContextState.call_of_differs c s hd
    have h2 := ContextState.call_of_not_differs (c.call s) s
      (Setter.not_differs_of_storedIn _ s h1.2.1 h)
    rw [h2]
    exact ⟨rfl, [s.driverCall], by simp, h1.1⟩

/-- Witness of C10 amended: SetStencilMask(FRONT_AND_BACK, 255) twice on a
fresh cache. -/
theorem setter_twice_without_nan_witness :
    (Setter.SetStencilMask FaceDirection.FRONT_AND_BACK 255).hasNaN = false
      ∧ (freshCache.call (Setter.SetStencilMask FaceDirection.FRONT_AND_BACK 255)).call
          (Setter.SetStencilMask FaceDirection.FRONT_AND_BACK 255)
        = freshCache.call (Setter.SetStencilMask FaceDirection.FRONT_AND_BACK 255) :=
  ⟨by decide,
    (setter_twice_without_nan freshCache (Setter.SetStencilMask FaceDirection.FRONT_AND_BACK 255)
      (by decide)).1⟩

/-- Claim C11: when the state group of a setter holds the value v and w differs
from v, calling the setter with w and then with v issues exactly two driver
calls, the first carrying w and the second carrying v, and gives back the
original current snapshot. -/
theorem set_other_value_then_original (c : ContextState) (g : StateGroup) (v w : g.Value)
    (hv : (g.setter v).storedIn c.m_currentState)
    (hw : (g.setter w).differsFromCache c.m_currentState = true) :
    ((c.call (g.setter w)).call (g.setter v)).m_stateFunctions
        = c.m_stateFunctions ++ [(g.setter w).driverCall, (g.setter v).driverCall]
      ∧ ((c.call (g.setter w)).call (g.setter v)).m_currentState = c.m_currentState := by
  have h1 := ContextState.call_of_differs c (g.setter w) hw
  have hd : (g.setter v).differsFromCache (c.call (g.setter w)).m_currentState = true := by
    rw [StateGroup.differs_swapped c.m_currentState _ g v w hv h1.2.1]
    exact hw
  have e1 := ContextState.call_eq c (g.setter w)
  rw [if_pos hw] at e1
  have e2 := ContextState.call_eq (c.call (g.setter w)) (g.setter v)
  rw [if_pos hd] at e2
  rw [e2, e1]
  exact ⟨by simp, StateGroup.applyTo_back c.m_currentState g v w hv⟩

/-- Witness of C11: on a fresh cache, whose blend factors are (ONE, ZERO),
SetBlendFunction(SRC_ALPHA, ONE_MIN_SRC_ALPHA) followed by
SetBlendFunction(ONE, ZERO). -/
theorem set_other_value_then_original_witness :
    (Setter.SetBlendFunction BlendFunction.ONE BlendFunction.ZERO).storedIn
        freshCache.m_currentState
      ∧ (Setter.SetBlendFunction BlendFunction.SRC_ALPHA
          BlendFunction.ONE_MIN_SRC_ALPHA).differsFromCache freshCache.m_currentState = true
      ∧ ((freshCache.call (Setter.SetBlendFunction BlendFunction.SRC_ALPHA
            BlendFunction.ONE_MIN_SRC_ALPHA)).call
          (Setter.SetBlendFunction BlendFunction.ONE BlendFunction.ZERO)).m_stateFunctions
        = freshCache.m_stateFunctions
          ++ [DriverCall.SetBlendFunction BlendFunction.SRC_ALPHA BlendFunction.ONE_MIN_SRC_ALPHA,
              DriverCall.SetBlendFunction BlendFunction.ONE BlendFunction.ZERO]
      ∧ ((freshCache.call (Setter.SetBlendFunction BlendFunction.SRC_ALPHA
            BlendFunction.ONE_MIN_SRC_ALPHA)).call
          (Setter.SetBlendFunction BlendFunction.ONE BlendFunction.ZERO)).m_currentState
        = freshCache.m_currentState :=
  ⟨⟨rfl, rfl⟩, by decide,
    set_other_value_then_original freshCache StateGroup.BlendFunction
      (BlendFunction.ONE, BlendFunction.ZERO)
      (BlendFunction.SRC_ALPHA, BlendFunction.ONE_MIN_SRC_ALPHA) ⟨rfl, rfl⟩ (by decide)⟩

/-- Claim C12: after a stencil setter called with FRONT_AND_BACK, the front-face
and the back-face getter both return the value passed, on every cache. -/
theorem front_and_back_set_reads_back_on_both_faces (c : ContextState) (function : TestFunction)
    (mask : Int) (stencilFails depthFails pass : TestOperation) :
    (c.SetStencilFunction FaceDirection.FRONT_AND_BACK function).GetFrontFaceStencilFunction
        = function
      ∧ (c.SetStencilFunction FaceDirection.FRONT_AND_BACK function).GetBackFaceStencilFunction
        = function
      ∧ (c.SetStencilMask FaceDirection.FRONT_AND_BACK mask).GetFrontFaceStencilMask = mask
      ∧ (c.SetStencilMask FaceDirection.FRONT_AND_BACK mask).GetBackFaceStencilMask = mask
      ∧ (c.SetStencilOperation FaceDirection.FRONT_AND_BACK stencilFails depthFails
          pass).GetFrontFaceStencilOperation = (stencilFails, depthFails, pass)
      ∧ (c.SetStencilOperation FaceDirection.FRONT_AND_BACK stencilFails depthFails
          pass).GetBackFaceStencilOperation = (stencilFails, depthFails, pass) := by
  refine ⟨?_, ?_, ?_, ?_, ?_, ?_⟩
  · by_cases h1 : c.m_currentState.frontFaceStencilFunction = function <;>
      by_cases h2 : c.m_currentState.backFaceStencilFunction = function <;>
      simp [ContextState.SetStencilFunction, ContextState.GetFrontFaceStencilFunction,
        ContextState.send, h1, h2]
  · by_cases h1 : c.m_currentState.frontFaceStencilFunction = function <;>
      by_cases h2 : c.m_currentState.backFaceStencilFunction = function <;>
      simp [ContextState.SetStencilFunction, ContextState.GetBackFaceStencilFunction,
        ContextState.send, h1, h2]
  · by_cases h1 : c.m_currentState.frontFaceStencilMask = mask <;>
      by_cases h2 : c.m_currentState.backFaceStencilMask = mask <;>
      simp [ContextState.SetStencilMask, ContextState.GetFrontFaceStencilMask,
        ContextState.send, h1, h2]
  · by_cases h1 : c.m_currentState.frontFaceStencilMask = mask <;>
      by_cases h2 : c.m_currentState.backFaceStencilMask = mask <;>
      simp [ContextState.SetStencilMask, ContextState.GetBackFaceStencilMask,
        ContextState.send, h1, h2]
  · simp only [ContextState.SetStencilOperation, ContextState.GetFrontFaceStencilOperation]
    split
    · rfl
    · rename_i h
      simp only [Bool.or_eq_true, bne_iff_ne, ne_eq, not_or, Decidable.not_not] at h
      simp [h]
  · simp only [ContextState.SetStencilOperation, ContextState.GetBackFaceStencilOperation]
    split
    · rfl
    · rename_i h
      simp only [Bool.or_eq_true, bne_iff_ne, ne_eq, not_or, Decidable.not_not] at h
      simp [h]

/-- Claim C13: a stencil setter called with FRONT_AND_BACK issues a driver call
exactly when the front-face or the back-face value differs from the new
value; the call issued is one call with the selector FRONT_AND_BACK and the
new value, and when none is issued the snapshot is unchanged. -/
theorem front_and_back_set_issues_one_call_iff_a_face_differs (c : ContextState)
    (function : TestFunction) (mask : Int) (stencilFails depthFails pass : TestOperation) :
    (if c.m_currentState.frontFaceStencilFunction ≠ function
          ∨ c.m_currentState.backFaceStencilFunction ≠ function then
        (c.SetStencilFunction FaceDirection.FRONT_AND_BACK function).m_stateFunctions
          = c.m_stateFunctions
            ++ [DriverCall.SetStencilFunction FaceDirection.FRONT_AND_BACK function]
      else
        (c.SetStencilFunction FaceDirection.FRONT_AND_BACK function).m_stateFunctions
            = c.m_stateFunctions
          ∧ (c.SetStencilFunction FaceDirection.FRONT_AND_BACK function).m_currentState
            = c.m_currentState)
    ∧ (if c.m_currentState.frontFaceStencilMask ≠ mask
          ∨ c.m_currentState.backFaceStencilMask ≠ mask then
        (c.SetStencilMask FaceDirection.FRONT_AND_BACK mask).m_stateFunctions
          = c.m_stateFunctions ++ [DriverCall.SetStencilMask FaceDirection.FRONT_AND_BACK mask]
      else
        (c.SetStencilMask FaceDirection.FRONT_AND_BACK mask).m_stateFunctions
            = c.m_stateFunctions
          ∧ (c.SetStencilMask FaceDirection.FRONT_AND_BACK mask).m_currentState
            = c.m_currentState)
    ∧ (if (c.m_currentState.frontFaceStencilOperation0 ≠ stencilFails
            ∨ c.m_currentState.frontFaceStencilOperation1 ≠ depthFails
            ∨ c.m_currentState.frontFaceStencilOperation2 ≠ pass)
          ∨ (c.m_currentState.backFaceStencilOperation0 ≠ stencilFails
            ∨ c.m_currentState.backFaceStencilOperation1 ≠ depthFails
            ∨ c.m_currentState.backFaceStencilOperation2 ≠ pass) then
        (c.SetStencilOperation FaceDirection.FRONT_AND_BACK stencilFails depthFails
            pass).m_stateFunctions
          = c.m_stateFunctions
            ++ [DriverCall.SetStencilOperation FaceDirection.FRONT_AND_BACK stencilFails
                  depthFails pass]
      else
        (c.SetStencilOperation FaceDirection.FRONT_AND_BACK stencilFails depthFails
            pass).m_stateFunctions = c.m_stateFunctions
          ∧ (c.SetStencilOperation FaceDirection.FRONT_AND_BACK stencilFails depthFails
            pass).m_currentState = c.m_currentState) := by
  refine ⟨?_, ?_, ?_⟩
  · by_cases h1 : c.m_currentState.frontFaceStencilFunction = function <;>
      by_cases h2 : c.m_currentState.backFaceStencilFunction = function <;>
      simp [ContextState.SetStencilFunction, ContextState.send, h1, h2]
  · by_cases h1 : c.m_currentState.frontFaceStencilMask = mask <;>
      by_cases h2 : c.m_currentState.backFaceStencilMask = mask <;>
      simp [ContextState.SetStencilMask, ContextState.send, h1, h2]
  · have e := ContextState.call_eq c
      (Setter.SetStencilOperation FaceDirection.FRONT_AND_BACK stencilFails depthFails pass)
    simp only [ContextState.call] at e
    rw [e]
    simp only [Setter.differsFromCache, Setter.driverCall, Bool.or_eq_true, bne_iff_ne, ne_eq,
      or_assoc]
    split <;> simp

/-- Claim C14: a stencil setter called with FRONT (with BACK) issues a driver
call exactly when the front-face (the back-face) stored value differs from
the new value, the call carries the same selector, and the stored value of
the other face is the same afterwards in every case. -/
theorem single_face_set_touches_only_that_face (c : ContextState)
    (function : TestFunction) (mask : Int) (stencilFails depthFails pass : TestOperation) :
    ((c.SetStencilFunction FaceDirection.FRONT function).m_stateFunctions
        = c.m_stateFunctions ++
          (if c.m_currentState.frontFaceStencilFunction ≠ function then
            [DriverCall.SetStencilFunction FaceDirection.FRONT function] else [])
      ∧ (c.SetStencilFunction FaceDirection.FRONT function).GetBackFaceStencilFunction
        = c.GetBackFaceStencilFunction)
    ∧ ((c.SetStencilFunction FaceDirection.BACK function).m_stateFunctions
        = c.m_stateFunctions ++
          (if c.m_currentState.backFaceStencilFunction ≠ function then
            [DriverCall.SetStencilFunction FaceDirection.BACK function] else [])
      ∧ (c.SetStencilFunction FaceDirection.BACK function).GetFrontFaceStencilFunction
        = c.GetFrontFaceStencilFunction)
    ∧ ((c.SetStencilMask FaceDirection.FRONT mask).m_stateFunctions
        = c.m_stateFunctions ++
          (if c.m_currentState.frontFaceStencilMask ≠ mask then
            [DriverCall.SetStencilMask FaceDirection.FRONT mask] else [])
      ∧ (c.SetStencilMask FaceDirection.FRONT mask).GetBackFaceStencilMask
        = c.GetBackFaceStencilMask)
    ∧ ((c.SetStencilMask FaceDirection.BACK mask).m_stateFunctions
        = c.m_stateFunctions ++
          (if c.m_currentState.backFaceStencilMask ≠ mask then
            [DriverCall.SetStencilMask FaceDirection.BACK mask] else [])
      ∧ (c.SetStencilMask FaceDirection.BACK mask).GetFrontFaceStencilMask
        = c.GetFrontFaceStencilMask)
    ∧ ((c.SetStencilOperation FaceDirection.FRONT stencilFails depthFails pass).m_stateFunctions
        = c.m_stateFunctions ++
          (if c.m_currentState.frontFaceStencilOperation0 ≠ stencilFails
              ∨ c.m_currentState.frontFaceStencilOperation1 ≠ depthFails
              ∨ c.m_currentState.frontFaceStencilOperation2 ≠ pass then
            [DriverCall.SetStencilOperation FaceDirection.FRONT stencilFails depthFails pass]
          else [])
      ∧ (c.SetStencilOperation FaceDirection.FRONT stencilFails depthFails
          pass).GetBackFaceStencilOperation = c.GetBackFaceStencilOperation)
    ∧ ((c.SetStencilOperation FaceDirection.BACK stencilFails depthFails pass).m_stateFunctions
        = c.m_stateFunctions ++
          (if c.m_currentState.backFaceStencilOperation0 ≠ stencilFails
              ∨ c.m_currentState.backFaceStencilOperation1 ≠ depthFails
              ∨ c.m_currentState.backFaceStencilOperation2 ≠ pass then
            [DriverCall.SetStencilOperation FaceDirection.BACK stencilFails depthFails pass]
          else [])
      ∧ (c.SetStencilOperation FaceDirection.BACK stencilFails depthFails
          pass).GetFrontFaceStencilOperation = c.GetFrontFaceStencilOperation) := by
  refine ⟨?_, ?_, ?_, ?_, ?_, ?_⟩
  · by_cases h : c.m_currentState.frontFaceStencilFunction = function <;>
      simp [ContextState.SetStencilFunction, ContextState.GetBackFaceStencilFunction,
        ContextState.send, h]
  · by_cases h : c.m_currentState.backFaceStencilFunction = function <;>
      simp [ContextState.SetStencilFunction, ContextState.GetFrontFaceStencilFunction,
        ContextState.send, h]
  · by_cases h : c.m_currentState.frontFaceStencilMask = mask <;>
      simp [ContextState.SetStencilMask, ContextState.GetBackFaceStencilMask,
        ContextState.send, h]
  · by_cases h : c.m_currentState.backFaceStencilMask = mask <;>
      simp [ContextState.SetStencilMask, ContextState.GetFrontFaceStencilMask,
        ContextState.send, h]
  · have e := ContextState.call_eq c
      (Setter.SetStencilOperation FaceDirection.FRONT stencilFails depthFails pass)
    simp only [ContextState.call] at e
    rw [e]
    simp only [Setter.differsFromCache, Setter.driverCall, Bool.or_eq_true, bne_iff_ne, ne_eq,
      or_assoc, ContextState.GetBackFaceStencilOperation]
    split <;> simp [DriverCall.applyTo]
  · have e := ContextState.call_eq c
      (Setter.SetStencilOperation FaceDirection.BACK stencilFails depthFails pass)
    simp only [ContextState.call] at e
    rw [e]
    simp only [Setter.differsFromCache, Setter.driverCall, Bool.or_eq_true, bne_iff_ne, ne_eq,
      or_assoc, ContextState.GetFrontFaceStencilOperation]
    split <;> simp [DriverCall.applyTo]

/-- Claim C15: RecordState() makes the recorded snapshot equal to the current
one, whatever was recorded before, leaves the current snapshot as it is and
issues no driver call. -/
theorem record_copies_current_snapshot (c : ContextState) :
    c.RecordState.m_recordedState = c.m_currentState
      ∧ c.RecordState.m_currentState = c.m_currentState
      ∧ c.RecordState.m_stateFunctions = c.m_stateFunctions :=
  ⟨rfl, rfl, rfl⟩

/-- Claim C16: GetStencilFunction() and GetStencilMask() fail their assertion
exactly when the front-face and back-face stored values differ, and otherwise
return the front-face value. -/
theorem unscoped_getters_fail_iff_faces_differ (c : ContextState) :
    c.GetStencilFunction
        = (if c.m_currentState.frontFaceStencilFunction = c.m_currentState.backFaceStencilFunction
            then some c.m_currentState.frontFaceStencilFunction else none)
      ∧ c.GetStencilMask
        = (if c.m_currentState.frontFaceStencilMask = c.m_currentState.backFaceStencilMask
            then some c.m_currentState.frontFaceStencilMask else none) := by
  constructor
  · by_cases h : c.m_currentState.frontFaceStencilFunction
        = c.m_currentState.backFaceStencilFunction <;>
      simp [ContextState.GetStencilFunction, GFW_ASSERT, h]
  · by_cases h : c.m_currentState.frontFaceStencilMask = c.m_currentState.backFaceStencilMask <;>
      simp [ContextState.GetStencilMask, GFW_ASSERT, h]

/-- Witness of C16: on a fresh cache SetStencilMask(FRONT, 0xFF) followed by
GetStencilMask() fails, the back-face mask being 0. -/
theorem unscoped_getters_fail_iff_faces_differ_witness :
    (freshCache.SetStencilMask FaceDirection.FRONT 255).GetStencilMask = none := by
  rw [(unscoped_getters_fail_iff_faces_differ _).2]
  decide

/-- Claim C17, evaluated where it fails: after
SetStencilOperation(FRONT_AND_BACK, KEEP, KEEP, ZERO) on a fresh cache both
faces hold (KEEP, KEEP, ZERO), yet GetStencilOperation() fails its assertion:
the third conjunct compares the front-face pass operation with the back-face
depth-fail operation. -/
theorem equal_stencil_operations_fail_the_check :
    (freshCache.SetStencilOperation FaceDirection.FRONT_AND_BACK TestOperation.KEEP
        TestOperation.KEEP TestOperation.ZERO).GetFrontFaceStencilOperation
      = (TestOperation.KEEP, TestOperation.KEEP, TestOperation.ZERO)
    ∧ (freshCache.SetStencilOperation FaceDirection.FRONT_AND_BACK TestOperation.KEEP
        TestOperation.KEEP TestOperation.ZERO).GetBackFaceStencilOperation
      = (TestOperation.KEEP, TestOperation.KEEP, TestOperation.ZERO)
    ∧ (freshCache.SetStencilOperation FaceDirection.FRONT_AND_BACK TestOperation.KEEP
        TestOperation.KEEP TestOperation.ZERO).GetStencilOperation = none := by
  decide

/-- Claim C18, evaluated where it fails: after
SetStencilOperation(BACK, KEEP, KEEP, ZERO) on a fresh cache the front face
holds (KEEP, KEEP, KEEP) and the back face (KEEP, KEEP, ZERO), which differ in
the pass operation, yet GetStencilOperation() passes its assertion and
returns the front-face triple. -/
theorem different_stencil_operations_pass_the_check :
    (freshCache.SetStencilOperation FaceDirection.BACK TestOperation.KEEP
        TestOperation.KEEP TestOperation.ZERO).GetFrontFaceStencilOperation
      = (TestOperation.KEEP, TestOperation.KEEP, TestOperation.KEEP)
    ∧ (freshCache.SetStencilOperation FaceDirection.BACK TestOperation.KEEP
        TestOperation.KEEP TestOperation.ZERO).GetBackFaceStencilOperation
      = (TestOperation.KEEP, TestOperation.KEEP, TestOperation.ZERO)
    ∧ (freshCache.SetStencilOperation FaceDirection.BACK TestOperation.KEEP
        TestOperation.KEEP TestOperation.ZERO).GetStencilOperation
      = some (TestOperation.KEEP, TestOperation.KEEP, TestOperation.KEEP) := by
  decide

/-- Claim C19: construction with the null driver fails, by the assertion that
is the first statement of the constructor, so that `InitializeState` is never
reached; construction with a driver succeeds. -/
theorem construction_fails_exactly_on_null_driver
    (stateFunctions : Option (List DriverCall)) (calls : List DriverCall)
    (viewportPosition viewportDimensions : Vec2) (clearColor : Vec4) :
    ContextState.new none viewportPosition viewportDimensions clearColor = none
      ∧ GFW_ASSERT (none : Option (List DriverCall)).isSome = none
      ∧ ContextState.new stateFunctions viewportPosition viewportDimensions clearColor
        = (GFW_ASSERT stateFunctions.isSome).bind (fun _ =>
            stateFunctions.map (fun driver => ContextState.InitializeState
              { m_stateFunctions := driver
                m_currentState :=
                  ContextStateVariables.initial viewportPosition viewportDimensions clearColor
                m_recordedState :=
                  ContextStateVariables.initial viewportPosition viewportDimensions clearColor }))
      ∧ (ContextState.new (some calls) viewportPosition viewportDimensions clearColor).isSome
        = true := by
  refine ⟨rfl, rfl, ?_, rfl⟩
  cases stateFunctions <;> rfl

/-- Claim C20: RestoreRecordedState() sends the driver no SetViewport call,
whatever the two snapshots hold, and afterwards the viewport getters return
the recorded viewport position and dimensions. -/
theorem restore_copies_viewport_without_pushing_it (c : ContextState) :
    ∃ issued : List DriverCall,
      c.RestoreRecordedState.m_stateFunctions = c.m_stateFunctions ++ issued
        ∧ (∀ position dimensions, DriverCall.SetViewport position dimensions ∉ issued)
        ∧ c.RestoreRecordedState.GetViewportPosition = c.m_recordedState.viewportPosition
        ∧ c.RestoreRecordedState.GetViewportDimensions
            = c.m_recordedState.viewportDimensions := by
  rw [ContextState.RestoreRecordedState_eq_callEach]
  exact ContextState.callEach_keeps_viewport restoreCalls restoreCalls_not_viewport
    { c with m_currentState := c.m_recordedState }

/-- Claim C21: right after construction the recorded snapshot equals the
current snapshot, both holding the defaults; RestoreRecordedState() is
defined on that cache as on any other. -/
theorem recorded_equals_current_after_construction (calls : List DriverCall)
    (viewportPosition viewportDimensions : Vec2) (clearColor : Vec4) :
    ∃ c, ContextState.new (some calls) viewportPosition viewportDimensions clearColor = some c
      ∧ c.m_recordedState = c.m_currentState
      ∧ c.m_currentState
          = ContextStateVariables.initial viewportPosition viewportDimensions clearColor
      ∧ c.RestoreRecordedState.m_recordedState = c.m_currentState := by
  refine ⟨_, rfl, rfl, rfl, ?_⟩
  rw [ContextState.RestoreRecordedState_eq_callEach]
  exact (ContextState.callEach_keeps_recorded _ _).trans rfl

/-- Claim C22: a setter leaves the recorded snapshot as it is, and the driver
calls it issues and the current snapshot it leaves are the same whatever the
recorded snapshot holds. -/
theorem recorded_snapshot_is_opaque_to_setters (c : ContextState) (s : Setter)
    (recorded : ContextStateVariables) :
    (c.call s).m_recordedState = c.m_recordedState
      ∧ (ContextState.call { c with m_recordedState := recorded } s).m_stateFunctions
          = (c.call s).m_stateFunctions
      ∧ (ContextState.call { c with m_recordedState := recorded } s).m_currentState
          = (c.call s).m_currentState := by
  rw [ContextState.call_eq, ContextState.call_eq]
  split <;> exact ⟨rfl, rfl, rfl⟩

/-- Claim C23: a setter call leaves every field of the current snapshot outside
the state group of the setter as it was: the snapshot after the call is the
snapshot before it with at most the fields of the group replaced. So
SetDepthFunction changes at most depthTestFunction and SetStencilMask at most
the two stencil mask fields. -/
theorem setter_touches_only_its_group (c : ContextState) (s : Setter)
    (function : TestFunction) (face : FaceDirection) (mask : Int) :
    (c.call s).m_currentState
        = s.group.withFieldsFrom c.m_currentState (c.call s).m_currentState
      ∧ (c.SetDepthFunction function).m_currentState
        = { c.m_currentState with
            depthTestFunction := (c.SetDepthFunction function).m_currentState.depthTestFunction }
      ∧ (c.SetStencilMask face mask).m_currentState
        = { c.m_currentState with
            frontFaceStencilMask := (c.SetStencilMask face mask).m_currentState.frontFaceStencilMask
            backFaceStencilMask :=
              (c.SetStencilMask face mask).m_currentState.backFaceStencilMask } := by
  have key : ∀ s : Setter, (c.call s).m_currentState
      = s.group.withFieldsFrom c.m_currentState (c.call s).m_currentState := by
    intro s
    rw [ContextState.call_eq]
    cases s
    case SetStencilFunction selector _ => cases selector <;> (split <;> rfl)
    case SetStencilMask selector _ => cases selector <;> (split <;> rfl)
    case SetStencilOperation selector _ _ _ => cases selector <;> (split <;> rfl)
    all_goals (split <;> rfl)
  exact ⟨key s, key (Setter.SetDepthFunction function), key (Setter.SetStencilMask face mask)⟩

/-- Claim C24: if the modelled driver state equals the current snapshot before
a setter call, it equals the current snapshot after the call, and so after
every finite sequence of setter calls. -/
theorem setters_preserve_agreement_with_driver (d : ContextStateVariables) (c : ContextState)
    (s : Setter) (setters : List Setter)
    (h : driverState d c.m_stateFunctions = c.m_currentState) :
    driverState d (c.call s).m_stateFunctions = (c.call s).m_currentState
      ∧ driverState d (c.callAll setters).m_stateFunctions
          = (c.callAll setters).m_currentState :=
  ⟨ContextState.call_keeps_agreement d c s h, ContextState.callAll_keeps_agreement d setters c h⟩

set_option maxRecDepth 100000 in
/-- Witness of C24: the cache reached from a fresh one by SetStencilMask(BACK, 1)
agrees with a driver whose viewport was zero before construction, and still
agrees after SetDepthTest(true) and after a sequence of three setter calls. -/
theorem setters_preserve_agreement_with_driver_witness :
    driverState (ContextStateVariables.initial Vec2.zero Vec2.zero Vec4.zero)
        (freshCache.SetStencilMask FaceDirection.BACK 1).m_stateFunctions
      = (freshCache.SetStencilMask FaceDirection.BACK 1).m_currentState
    ∧ driverState (ContextStateVariables.initial Vec2.zero Vec2.zero Vec4.zero)
        ((freshCache.SetStencilMask FaceDirection.BACK 1).callAll
          [Setter.SetDepthTest true, Setter.SetPointSize F32.qNaN,
            Setter.SetStencilFunction FaceDirection.FRONT TestFunction.NEVER]).m_stateFunctions
      = ((freshCache.SetStencilMask FaceDirection.BACK 1).callAll
          [Setter.SetDepthTest true, Setter.SetPointSize F32.qNaN,
            Setter.SetStencilFunction FaceDirection.FRONT TestFunction.NEVER]).m_currentState :=
  ⟨by decide,
    (setters_preserve_agreement_with_driver _ _ (Setter.SetDepthTest true) _ (by decide)).2⟩

/-- Claim C25: after RestoreRecordedState() every field of the current snapshot
equals the recorded field, except that the back-face stencil function, mask
and operations equal the recorded front-face ones, so that front and back
agree; the recorded snapshot is unchanged. -/
theorem restore_leaves_recorded_snapshot_with_back_from_front (c : ContextState) :
    c.RestoreRecordedState.m_currentState = c.m_recordedState.withBackFromFront
      ∧ c.RestoreRecordedState.m_recordedState = c.m_recordedState
      ∧ c.RestoreRecordedState.GetBackFaceStencilFunction
          = c.RestoreRecordedState.GetFrontFaceStencilFunction
      ∧ c.RestoreRecordedState.GetBackFaceStencilMask
          = c.RestoreRecordedState.GetFrontFaceStencilMask
      ∧ c.RestoreRecordedState.GetBackFaceStencilOperation
          = c.RestoreRecordedState.GetFrontFaceStencilOperation := by
  obtain ⟨before, after, h, _⟩ := ContextState.RestoreRecordedState_eq c
  rw [h]
  exact ⟨rfl, rfl, rfl, rfl, rfl⟩

set_option maxRecDepth 100000 in
/-- Claim C26 as stated fails: after SetStencilMask(BACK, 1) and
SetPointSize(NaN) on a fresh cache and RecordState(), the recorded front and
back stencil values agree, yet RestoreRecordedState() issues a driver call,
SetPointSize(NaN). -/
theorem restore_calls_counterexample :
    (((freshCache.SetStencilMask FaceDirection.BACK 1).SetPointSize F32.qNaN).RecordState
        ).m_recordedState.restoreStencilCalls = []
    ∧ (((freshCache.SetStencilMask FaceDirection.BACK 1).SetPointSize F32.qNaN).RecordState
        ).RestoreRecordedState.m_stateFunctions
      = (((freshCache.SetStencilMask FaceDirection.BACK 1).SetPointSize F32.qNaN).RecordState
        ).m_stateFunctions ++ [DriverCall.SetPointSize F32.qNaN] := by
  decide

/-- Claim C26, amended: when no recorded float outside the viewport is a NaN,
the driver calls RestoreRecordedState() issues are exactly, in the order
function, mask, operation, one FRONT_AND_BACK stencil call carrying the
recorded front-face value for each of the three groups whose recorded front
and back values differ: at most three calls, and none when they all agree. -/
theorem restore_calls_without_nan (c : ContextState) (h : c.m_recordedState.hasNaN = false) :
    c.RestoreRecordedState.m_stateFunctions
        = c.m_stateFunctions ++ c.m_recordedState.restoreStencilCalls
      ∧ c.m_recordedState.restoreStencilCalls.length ≤ 3
      ∧ (if c.m_recordedState.frontFaceStencilFunction = c.m_recordedState.backFaceStencilFunction
            ∧ c.m_recordedState.frontFaceStencilMask = c.m_recordedState.backFaceStencilMask
            ∧ c.m_recordedState.frontFaceStencilOperation0
              = c.m_recordedState.backFaceStencilOperation0
            ∧ c.m_recordedState.frontFaceStencilOperation1
              = c.m_recordedState.backFaceStencilOperation1
            ∧ c.m_recordedState.frontFaceStencilOperation2
              = c.m_recordedState.backFaceStencilOperation2 then
          c.RestoreRecordedState.m_stateFunctions = c.m_stateFunctions else True) := by
  obtain ⟨before, after, he, h0⟩ := ContextState.RestoreRecordedState_eq c
  obtain ⟨hb, ha⟩ := h0 h
  subst hb ha
  have hlog : c.RestoreRecordedState.m_stateFunctions
      = c.m_stateFunctions ++ c.m_recordedState.restoreStencilCalls := by
    rw [he]; simp
  refine ⟨hlog, ?_, ?_⟩
  · simp only [ContextStateVariables.restoreStencilCalls, List.length_append]
    split <;> split <;> split <;> simp
  · split
    · rename_i hq
      obtain ⟨e1, e2, e3, e4, e5⟩ := hq
      rw [hlog]
      simp [ContextStateVariables.restoreStencilCalls, e1, e2, e3, e4, e5]
    · trivial

set_option maxRecDepth 100000 in
/-- Witness of C26 amended: on a fresh cache, whose recorded front and back
stencil masks are 1 and 0, RestoreRecordedState() issues the single call
SetStencilMask(FRONT_AND_BACK, 1). -/
theorem restore_calls_without_nan_witness :
    freshCache.m_recordedState.hasNaN = false
      ∧ freshCache.RestoreRecordedState.m_stateFunctions
        = freshCache.m_stateFunctions
          ++ [DriverCall.SetStencilMask FaceDirection.FRONT_AND_BACK 1] :=
  ⟨by decide, (restore_calls_without_nan freshCache (by decide)).1.trans (by decide)⟩

/-- Claim C27: on a cache whose front-face and back-face stencil function, mask
and operations are equal, RecordState(), any finite sequence of setter calls
and RestoreRecordedState() leave the current snapshot equal, in every field,
to the snapshot at the time of RecordState(). -/
theorem record_setters_restore_round_trip (c : ContextState) (setters : List Setter)
    (hf : c.m_currentState.frontFaceStencilFunction = c.m_currentState.backFaceStencilFunction)
    (hm : c.m_currentState.frontFaceStencilMask = c.m_currentState.backFaceStencilMask)
    (ho : c.GetFrontFaceStencilOperation = c.GetBackFaceStencilOperation) :
    ((c.RecordState.callAll setters).RestoreRecordedState).m_currentState
      = c.m_currentState := by
  obtain ⟨before, after, h, _⟩ :=
    ContextState.RestoreRecordedState_eq (c.RecordState.callAll setters)
  rw [h, ContextState.callAll_keeps_recorded]
  simp only [ContextState.GetFrontFaceStencilOperation, ContextState.GetBackFaceStencilOperation,
    Prod.mk.injEq] at ho
  obtain ⟨log, cur, rec⟩ := c
  cases cur
  simp_all [ContextState.RecordState, ContextStateVariables.withBackFromFront]

set_option maxRecDepth 100000 in
/-- Witness of C27: the cache reached from a fresh one by SetStencilMask(BACK, 1)
has equal front and back stencil values; after RecordState(), three setter
calls and RestoreRecordedState() its current snapshot is what it was. -/
theorem record_setters_restore_round_trip_witness :
    ((((freshCache.SetStencilMask FaceDirection.BACK 1).RecordState).callAll
        [Setter.SetDepthTest true, Setter.SetViewport Vec2.zero ⟨F32.one, F32.one⟩,
          Setter.SetStencilOperation FaceDirection.BACK TestOperation.KEEP TestOperation.ZERO
            TestOperation.INVERT]).RestoreRecordedState).m_currentState
      = (freshCache.SetStencilMask FaceDirection.BACK 1).m_currentState :=
  record_setters_restore_round_trip (freshCache.SetStencilMask FaceDirection.BACK 1) _
    (by decide) (by decide) (by decide)

/-- Claim C28, evaluated where it fails: the default front-face stencil mask is
1 and the default back-face stencil mask is 0, so right after construction
GetStencilMask() fails its assertion, and the SetStencilMask(FRONT_AND_BACK, 1)
pushed at construction carries the front-face default only. The stencil
function and operation defaults do agree and their getters pass. -/
theorem default_stencil_masks_differ (calls : List DriverCall)
    (viewportPosition viewportDimensions : Vec2) (clearColor : Vec4) :
    ∃ c, ContextState.new (some calls) viewportPosition viewportDimensions clearColor = some c
      ∧ c.GetFrontFaceStencilMask = 1
      ∧ c.GetBackFaceStencilMask = 0
      ∧ c.GetStencilMask = none
      ∧ DriverCall.SetStencilMask FaceDirection.FRONT_AND_BACK 1 ∈ c.m_stateFunctions
      ∧ c.GetStencilFunction = some TestFunction.ALWAYS
      ∧ c.GetStencilOperation
          = some (TestOperation.KEEP, TestOperation.KEEP, TestOperation.KEEP) := by
  refine ⟨_, rfl, rfl, rfl, rfl, ?_, rfl, rfl⟩
  simp [ContextState.InitializeState, ContextState.send, ContextStateVariables.initial]

/-- Claim C29: two setter calls of different state groups, executed in either
order, leave the same current snapshot and make the driver receive the same
calls, in the order of execution. -/
theorem setters_of_different_groups_commute (c : ContextState) (s1 s2 : Setter)
    (h : s1.group ≠ s2.group) :
    ((c.call s1).call s2).m_currentState = ((c.call s2).call s1).m_currentState
      ∧ (∃ issued1 issued2 : List DriverCall,
          ((c.call s1).call s2).m_stateFunctions = c.m_stateFunctions ++ (issued1 ++ issued2)
            ∧ ((c.call s2).call s1).m_stateFunctions
              = c.m_stateFunctions ++ (issued2 ++ issued1))
      ∧ List.Perm ((c.call s1).call s2).m_stateFunctions
          ((c.call s2).call s1).m_stateFunctions := by
  obtain ⟨hg2, hc⟩ := Setter.independent_of_other_group s1 s2 h
  obtain ⟨hg1, _⟩ := Setter.independent_of_other_group s2 s1 (fun e => h e.symm)
  have e12 : (c.call s1).call s2
      = { m_stateFunctions := c.m_stateFunctions
            ++ ((if s1.differsFromCache c.m_currentState = true then [s1.driverCall] else [])
              ++ (if s2.differsFromCache c.m_currentState = true then [s2.driverCall] else []))
          m_currentState := ((c.call s1).call s2).m_currentState
          m_recordedState := c.m_recordedState } := by
    rw [ContextState.call_eq (c.call s1) s2, ContextState.call_eq c s1]
    by_cases d1 : s1.differsFromCache c.m_currentState = true <;>
      by_cases d2 : s2.differsFromCache c.m_currentState = true <;>
      simp [d1, d2, hg2]
  have e21 : (c.call s2).call s1
      = { m_stateFunctions := c.m_stateFunctions
            ++ ((if s2.differsFromCache c.m_currentState = true then [s2.driverCall] else [])
              ++ (if s1.differsFromCache c.m_currentState = true then [s1.driverCall] else []))
          m_currentState := ((c.call s2).call s1).m_currentState
          m_recordedState := c.m_recordedState } := by
    rw [ContextState.call_eq (c.call s2) s1, ContextState.call_eq c s2]
    by_cases d1 : s1.differsFromCache c.m_currentState = true <;>
      by_cases d2 : s2.differsFromCache c.m_currentState = true <;>
      simp [d1, d2, hg1]
  have ecur : ((c.call s1).call s2).m_currentState = ((c.call s2).call s1).m_currentState := by
    rw [ContextState.call_eq (c.call s1) s2, ContextState.call_eq c s1,
      ContextState.call_eq (c.call s2) s1, ContextState.call_eq c s2]
    by_cases d1 : s1.differsFromCache c.m_currentState = true <;>
      by_cases d2 : s2.differsFromCache c.m_currentState = true <;>
      simp [d1, d2, hg1, hg2, hc]
  refine ⟨ecur, ⟨_, _, congrArg ContextState.m_stateFunctions e12,
    congrArg ContextState.m_stateFunctions e21⟩, ?_⟩
  rw [e12, e21]
  exact List.Perm.append_left _ List.perm_append_comm

/-- Witness of C29: SetDepthFunction(GREATER) and SetBlend(true) on a fresh
cache. -/
theorem setters_of_different_groups_commute_witness :
    (Setter.SetDepthFunction TestFunction.GREATER).group ≠ (Setter.SetBlend true).group
      ∧ ((freshCache.call (Setter.SetDepthFunction TestFunction.GREATER)).call
          (Setter.SetBlend true)).m_currentState
        = ((freshCache.call (Setter.SetBlend true)).call
          (Setter.SetDepthFunction TestFunction.GREATER)).m_currentState :=
  ⟨by decide,
    (setters_of_different_groups_commute freshCache (Setter.SetDepthFunction TestFunction.GREATER)
      (Setter.SetBlend true) (by decide)).1⟩

end GFW
